import Mathlib

/-!
Shallow embedding of the ElectricEye audit checks (repository `ElectricEye`,
files `eeauditor/auditors/aws/Amazon_ELB_Auditor.py`,
`eeauditor/auditors/m365/M365_AadUsers_Auditor.py`,
`eeauditor/auditors/AWS_Security_Services_Auditor.py`,
`eeauditor/auditors/aws/Amazon_EC2_Image_Builder_Auditor.py`) together with
proofs about the finding lifecycle invariants, the run-scoped cache, the
credential resolvers and the stable-identifier scheme.

External provider calls (boto3/requests responses) are modelled as explicit
inputs.  Finding records keep every field that some claim inspects; purely
narrative fields (Title, Description, Remediation text, ProductFields,
Types, Confidence, RelatedRequirements, the base64 AssetDetails blob and the
constant SchemaVersion/ProductArn strings) are elided, since no statement
below refers to them.
-/

namespace ElectricEye

/-! ## Canonical finding enumerations -/

inductive ComplianceStatus
  | PASSED
  | FAILED
deriving DecidableEq

inductive WorkflowStatus
  | NEW
  | RESOLVED
deriving DecidableEq

inductive RecordState
  | ACTIVE
  | ARCHIVED
deriving DecidableEq

inductive SeverityLabel
  | INFORMATIONAL
  | LOW
  | MEDIUM
  | HIGH
  | CRITICAL
deriving DecidableEq

/-- The fields of a yielded finding record that the development inspects.
`resourceId` is `Resources[0]["Id"]` of the source dictionaries and
`resourceType` is `Resources[0]["Type"]`. -/
structure Finding where
  id : String
  generatorId : String
  awsAccountId : String
  createdAt : String
  updatedAt : String
  severityLabel : SeverityLabel
  complianceStatus : ComplianceStatus
  workflowStatus : WorkflowStatus
  recordState : RecordState
  resourceType : String
  resourceId : String
deriving DecidableEq

/-! ## Python truthiness helpers -/

/-- Python truthiness of a string: only the empty string is falsy. -/
def pyTruthyStr (s : String) : Bool := s ≠ ""

/-- Python `str` of a boolean, as used by `str(... ["Enabled"])` in the
cross-zone and connection-draining checks. -/
def pyStrBool : Bool → String
  | true => "True"
  | false => "False"

/-! ## Data model of the AWS classic load balancer responses -/

/-- One entry of `lb["ListenerDescriptions"]`, flattening
`listeners["Listener"]["Protocol"]` into `Protocol`. -/
structure Listener where
  Protocol : String
  PolicyNames : List String
deriving DecidableEq

/-- One entry of `describe_load_balancers()["LoadBalancerDescriptions"]`. -/
structure ClassicLoadBalancer where
  LoadBalancerName : String
  DNSName : String
  SecurityGroups : List String
  Subnets : List String
  AvailabilityZones : List String
  VPCId : String
  Scheme : String
  ListenerDescriptions : List Listener
deriving DecidableEq

/-- The `describe_load_balancer_attributes` response fields the checks read. -/
structure LoadBalancerAttributes where
  crossZoneLoadBalancingEnabled : Bool
  connectionDrainingEnabled : Bool
  accessLogEnabled : Bool

/-- The classic load balancer ARN assembled by every ELB check:
`f"arn:{awsPartition}:elasticloadbalancing:{awsRegion}:{awsAccountId}:loadbalancer/{clbName}"`. -/
def clbArnFor (awsPartition awsRegion awsAccountId clbName : String) : String :=
  "arn:" ++ awsPartition ++ ":elasticloadbalancing:" ++ awsRegion ++ ":" ++ awsAccountId
    ++ ":loadbalancer/" ++ clbName

/-! ## [ELB.1] internet_facing_clb_https_listener_check (lines 135-301) -/

/-- FAILED-branch finding of [ELB.1] (source lines 155-226). -/
def elb1_failing (awsAccountId awsRegion awsPartition iso8601Time : String)
    (lb : ClassicLoadBalancer) : Finding :=
  let clbArn := clbArnFor awsPartition awsRegion awsAccountId lb.LoadBalancerName
  { id := clbArn ++ "/classic-loadbalancer-secure-listener-check"
    generatorId := clbArn
    awsAccountId := awsAccountId
    createdAt := iso8601Time
    updatedAt := iso8601Time
    severityLabel := .MEDIUM
    complianceStatus := .FAILED
    workflowStatus := .NEW
    recordState := .ACTIVE
    resourceType := "AwsElbLoadBalancer"
    resourceId := clbArn }

/-- PASSED-branch finding of [ELB.1] (source lines 228-299). -/
def elb1_passing (awsAccountId awsRegion awsPartition iso8601Time : String)
    (lb : ClassicLoadBalancer) : Finding :=
  let clbArn := clbArnFor awsPartition awsRegion awsAccountId lb.LoadBalancerName
  { id := clbArn ++ "/classic-loadbalancer-secure-listener-check"
    generatorId := clbArn
    awsAccountId := awsAccountId
    createdAt := iso8601Time
    updatedAt := iso8601Time
    severityLabel := .INFORMATIONAL
    complianceStatus := .PASSED
    workflowStatus := .RESOLVED
    recordState := .ARCHIVED
    resourceType := "AwsElbLoadBalancer"
    resourceId := clbArn }

/-- [ELB.1] on an already-fetched load balancer list.  The branch condition
mirrors the source expression `listeners["Listener"]["Protocol"] != "HTTPS"
or "SSL"`: a Python `or` whose right operand is the constant, truthy string
literal `"SSL"`. -/
def internet_facing_clb_https_listener_check
    (awsAccountId awsRegion awsPartition iso8601Time : String)
    (lbs : List ClassicLoadBalancer) : List Finding :=
  lbs.flatMap fun lb =>
    if lb.Scheme = "internet-facing" then
      lb.ListenerDescriptions.map fun listeners =>
        if (listeners.Protocol != "HTTPS") || pyTruthyStr "SSL" then
          elb1_failing awsAccountId awsRegion awsPartition iso8601Time lb
        else
          elb1_passing awsAccountId awsRegion awsPartition iso8601Time lb
    else []

/-! ## [ELB.2] clb_https_listener_tls12_policy_check (lines 303-469) -/

/-- PASSED-branch finding of [ELB.2] (source lines 325-396). -/
def elb2_passing (awsAccountId awsRegion awsPartition iso8601Time : String)
    (lb : ClassicLoadBalancer) : Finding :=
  let clbArn := clbArnFor awsPartition awsRegion awsAccountId lb.LoadBalancerName
  { id := clbArn ++ "/classic-loadbalancer-tls12-policy-check"
    generatorId := clbArn
    awsAccountId := awsAccountId
    createdAt := iso8601Time
    updatedAt := iso8601Time
    severityLabel := .INFORMATIONAL
    complianceStatus := .PASSED
    workflowStatus := .RESOLVED
    recordState := .ARCHIVED
    resourceType := "AwsElbLoadBalancer"
    resourceId := clbArn }

/-- FAILED-branch finding of [ELB.2] (source lines 398-469). -/
def elb2_failing (awsAccountId awsRegion awsPartition iso8601Time : String)
    (lb : ClassicLoadBalancer) : Finding :=
  let clbArn := clbArnFor awsPartition awsRegion awsAccountId lb.LoadBalancerName
  { id := clbArn ++ "/classic-loadbalancer-tls12-policy-check"
    generatorId := clbArn
    awsAccountId := awsAccountId
    createdAt := iso8601Time
    updatedAt := iso8601Time
    severityLabel := .MEDIUM
    complianceStatus := .FAILED
    workflowStatus := .NEW
    recordState := .ACTIVE
    resourceType := "AwsElbLoadBalancer"
    resourceId := clbArn }

/-- [ELB.2]: `if not listenerPolicies: continue`, then
`elif "ELBSecurityPolicy-TLS-1-2-2017-01" in listenerPolicies`. -/
def clb_https_listener_tls12_policy_check
    (awsAccountId awsRegion awsPartition iso8601Time : String)
    (lbs : List ClassicLoadBalancer) : List Finding :=
  lbs.flatMap fun lb =>
    lb.ListenerDescriptions.flatMap fun listeners =>
      let listenerPolicies := listeners.PolicyNames
      if listenerPolicies = [] then []
      else if "ELBSecurityPolicy-TLS-1-2-2017-01" ∈ listenerPolicies then
        [elb2_passing awsAccountId awsRegion awsPartition iso8601Time lb]
      else
        [elb2_failing awsAccountId awsRegion awsPartition iso8601Time lb]

/-! ## [ELB.3] clb_cross_zone_balancing_check (lines 471-659) -/

/-- FAILED-branch finding of [ELB.3] (source lines 495-576). -/
def elb3_failing (awsAccountId awsRegion awsPartition iso8601Time : String)
    (lb : ClassicLoadBalancer) : Finding :=
  let clbArn := clbArnFor awsPartition awsRegion awsAccountId lb.LoadBalancerName
  { id := clbArn ++ "/classic-loadbalancer-cross-zone-check"
    generatorId := clbArn
    awsAccountId := awsAccountId
    createdAt := iso8601Time
    updatedAt := iso8601Time
    severityLabel := .LOW
    complianceStatus := .FAILED
    workflowStatus := .NEW
    recordState := .ACTIVE
    resourceType := "AwsElbLoadBalancer"
    resourceId := clbArn }

/-- PASSED-branch finding of [ELB.3] (source lines 578-659). -/
def elb3_passing (awsAccountId awsRegion awsPartition iso8601Time : String)
    (lb : ClassicLoadBalancer) : Finding :=
  let clbArn := clbArnFor awsPartition awsRegion awsAccountId lb.LoadBalancerName
  { id := clbArn ++ "/classic-loadbalancer-cross-zone-check"
    generatorId := clbArn
    awsAccountId := awsAccountId
    createdAt := iso8601Time
    updatedAt := iso8601Time
    severityLabel := .INFORMATIONAL
    complianceStatus := .PASSED
    workflowStatus := .RESOLVED
    recordState := .ARCHIVED
    resourceType := "AwsElbLoadBalancer"
    resourceId := clbArn }

/-- [ELB.3]: `crossZoneCheck = str(...["CrossZoneLoadBalancing"]["Enabled"])`,
branching on `crossZoneCheck == "False"`.  `lbAttributes` models the
per-name `describe_load_balancer_attributes` call. -/
def clb_cross_zone_balancing_check
    (awsAccountId awsRegion awsPartition iso8601Time : String)
    (lbAttributes : String → LoadBalancerAttributes)
    (lbs : List ClassicLoadBalancer) : List Finding :=
  lbs.map fun lb =>
    let crossZoneCheck := pyStrBool (lbAttributes lb.LoadBalancerName).crossZoneLoadBalancingEnabled
    if crossZoneCheck = "False" then
      elb3_failing awsAccountId awsRegion awsPartition iso8601Time lb
    else
      elb3_passing awsAccountId awsRegion awsPartition iso8601Time lb

/-! ## [ELB.4] clb_connection_draining_check (lines 661-849) -/

/-- FAILED-branch finding of [ELB.4] (source lines 685-766). -/
def elb4_failing (awsAccountId awsRegion awsPartition iso8601Time : String)
    (lb : ClassicLoadBalancer) : Finding :=
  let clbArn := clbArnFor awsPartition awsRegion awsAccountId lb.LoadBalancerName
  { id := clbArn ++ "/classic-loadbalancer-connection-draining-check"
    generatorId := clbArn
    awsAccountId := awsAccountId
    createdAt := iso8601Time
    updatedAt := iso8601Time
    severityLabel := .LOW
    complianceStatus := .FAILED
    workflowStatus := .NEW
    recordState := .ACTIVE
    resourceType := "AwsElbLoadBalancer"
    resourceId := clbArn }

/-- PASSED-branch finding of [ELB.4] (source lines 768-849). -/
def elb4_passing (awsAccountId awsRegion awsPartition iso8601Time : String)
    (lb : ClassicLoadBalancer) : Finding :=
  let clbArn := clbArnFor awsPartition awsRegion awsAccountId lb.LoadBalancerName
  { id := clbArn ++ "/classic-loadbalancer-connection-draining-check"
    generatorId := clbArn
    awsAccountId := awsAccountId
    createdAt := iso8601Time
    updatedAt := iso8601Time
    severityLabel := .INFORMATIONAL
    complianceStatus := .PASSED
    workflowStatus := .RESOLVED
    recordState := .ARCHIVED
    resourceType := "AwsElbLoadBalancer"
    resourceId := clbArn }

/-- [ELB.4]: branches on `str(...["ConnectionDraining"]["Enabled"]) == "False"`. -/
def clb_connection_draining_check
    (awsAccountId awsRegion awsPartition iso8601Time : String)
    (lbAttributes : String → LoadBalancerAttributes)
    (lbs : List ClassicLoadBalancer) : List Finding :=
  lbs.map fun lb =>
    let connectionDrainCheck := pyStrBool (lbAttributes lb.LoadBalancerName).connectionDrainingEnabled
    if connectionDrainCheck = "False" then
      elb4_failing awsAccountId awsRegion awsPartition iso8601Time lb
    else
      elb4_passing awsAccountId awsRegion awsPartition iso8601Time lb

/-! ## [ELB.5] clb_access_logging_check (lines 851-1077) -/

/-- FAILED-branch finding of [ELB.5] (source lines 871-973). -/
def elb5_failing (awsAccountId awsRegion awsPartition iso8601Time : String)
    (lb : ClassicLoadBalancer) : Finding :=
  let clbArn := clbArnFor awsPartition awsRegion awsAccountId lb.LoadBalancerName
  { id := clbArn ++ "/classic-loadbalancer-access-logging-check"
    generatorId := clbArn
    awsAccountId := awsAccountId
    createdAt := iso8601Time
    updatedAt := iso8601Time
    severityLabel := .MEDIUM
    complianceStatus := .FAILED
    workflowStatus := .NEW
    recordState := .ACTIVE
    resourceType := "AwsElbLoadBalancer"
    resourceId := clbArn }

/-- PASSED-branch finding of [ELB.5] (source lines 975-1077). -/
def elb5_passing (awsAccountId awsRegion awsPartition iso8601Time : String)
    (lb : ClassicLoadBalancer) : Finding :=
  let clbArn := clbArnFor awsPartition awsRegion awsAccountId lb.LoadBalancerName
  { id := clbArn ++ "/classic-loadbalancer-access-logging-check"
    generatorId := clbArn
    awsAccountId := awsAccountId
    createdAt := iso8601Time
    updatedAt := iso8601Time
    severityLabel := .INFORMATIONAL
    complianceStatus := .PASSED
    workflowStatus := .RESOLVED
    recordState := .ARCHIVED
    resourceType := "AwsElbLoadBalancer"
    resourceId := clbArn }

/-- [ELB.5]: branches on `...["AccessLog"]["Enabled"] is False`. -/
def clb_access_logging_check
    (awsAccountId awsRegion awsPartition iso8601Time : String)
    (lbAttributes : String → LoadBalancerAttributes)
    (lbs : List ClassicLoadBalancer) : List Finding :=
  lbs.map fun lb =>
    if (lbAttributes lb.LoadBalancerName).accessLogEnabled = false then
      elb5_failing awsAccountId awsRegion awsPartition iso8601Time lb
    else
      elb5_passing awsAccountId awsRegion awsPartition iso8601Time lb

/-! ## [ELB.6] public_clb_shodan_check (lines 1079-1270) -/

/-- The response of the Shodan host lookup.  `noInformation` models the case
in which `str(r)` equals the no-information error payload the source
compares against (line 1106); `indexed` carries any other response body. -/
inductive ShodanResponse
  | noInformation
  | indexed (body : String)
deriving DecidableEq

/-- PASSED-branch finding of [ELB.6] (source lines 1108-1185).  Note the
identifier inserts the DNS name between the ARN and the check slug:
`f"{clbArn}/{dnsName}/classic-load-balancer-shodan-index-check"`. -/
def elb6_passing (awsAccountId awsRegion awsPartition iso8601time : String)
    (lb : ClassicLoadBalancer) : Finding :=
  let clbArn := clbArnFor awsPartition awsRegion awsAccountId lb.LoadBalancerName
  { id := clbArn ++ "/" ++ lb.DNSName ++ "/classic-load-balancer-shodan-index-check"
    generatorId := clbArn ++ "/" ++ lb.DNSName ++ "/classic-load-balancer-shodan-index-check"
    awsAccountId := awsAccountId
    createdAt := iso8601time
    updatedAt := iso8601time
    severityLabel := .INFORMATIONAL
    complianceStatus := .PASSED
    workflowStatus := .RESOLVED
    recordState := .ARCHIVED
    resourceType := "AwsElbLoadBalancer"
    resourceId := clbArn }

/-- FAILED-branch finding of [ELB.6] (source lines 1193-1270). -/
def elb6_failing (awsAccountId awsRegion awsPartition iso8601time : String)
    (lb : ClassicLoadBalancer) : Finding :=
  let clbArn := clbArnFor awsPartition awsRegion awsAccountId lb.LoadBalancerName
  { id := clbArn ++ "/" ++ lb.DNSName ++ "/classic-load-balancer-shodan-index-check"
    generatorId := clbArn ++ "/" ++ lb.DNSName ++ "/classic-load-balancer-shodan-index-check"
    awsAccountId := awsAccountId
    createdAt := iso8601time
    updatedAt := iso8601time
    severityLabel := .MEDIUM
    complianceStatus := .FAILED
    workflowStatus := .NEW
    recordState := .ACTIVE
    resourceType := "AwsElbLoadBalancer"
    resourceId := clbArn }

/-- [ELB.6] on the already-resolved Shodan API key.  `googleDns` models
`google_dns_resolver` (returns `None` on failure, source lines 100-123) and
`shodanHost` models the Shodan REST lookup for an IP.  The source tests
`if shodanApiKey is None: continue` inside the load balancer loop. -/
def public_clb_shodan_check
    (awsAccountId awsRegion awsPartition iso8601time : String)
    (shodanApiKey : Option String)
    (googleDns : String → Option String)
    (shodanHost : String → ShodanResponse)
    (lbs : List ClassicLoadBalancer) : List Finding :=
  lbs.flatMap fun lb =>
    if shodanApiKey = none then []
    else if lb.Scheme = "internet-facing" then
      match googleDns lb.DNSName with
      | none => []
      | some clbIp =>
        match shodanHost clbIp with
        | .noInformation =>
          [elb6_passing awsAccountId awsRegion awsPartition iso8601time lb]
        | .indexed _ =>
          [elb6_failing awsAccountId awsRegion awsPartition iso8601time lb]
    else []

/-! ## M365 Azure AD data model (M365_AadUsers_Auditor.py) -/

/-- One entry of the Graph `/users` listing (the fields the checks read). -/
structure AadUser where
  id : String
  displayName : String
  userPrincipalName : String
deriving DecidableEq

/-- One entry of `/identityProtection/riskDetections`. -/
structure RiskDetection where
  userId : String
  riskLevel : String
  riskState : String
deriving DecidableEq

/-- One entry of `/identityProtection/riskyUsers`. -/
structure RiskyUser where
  id : String
  riskLevel : String
  riskState : String
deriving DecidableEq

/-- One entry of `/users/{id}/authentication/methods`; `odataType` is the
`"@odata.type"` discriminator. -/
structure AuthMethod where
  odataType : String
deriving DecidableEq

/-- A user dictionary after `check_user_mfa_and_risk` set the three
enrichment keys.  The Python `{}` sentinel for `identityProtectionRiskyUser`
is modelled as `none`. -/
structure EnrichedUser where
  id : String
  displayName : String
  userPrincipalName : String
  identityProtectionRiskDetections : List RiskDetection
  identityProtectionRiskyUser : Option RiskyUser
  authenticationMethods : List AuthMethod
deriving DecidableEq

/-- `check_user_mfa_and_risk` (source lines 104-156).  `authMethodsApi`
models the per-user GET of `/users/{userId}/authentication/methods` as a
pair of status code and decoded `value` list.  A user whose request does not
return 200 has `authenticationMethods` set to `[]` in the source but is not
appended to `enrichedUsers`, so it is dropped from the result. -/
def check_user_mfa_and_risk
    (riskDetections : List RiskDetection) (riskyUsers : List RiskyUser)
    (authMethodsApi : String → Nat × List AuthMethod)
    (users : List AadUser) : List EnrichedUser :=
  users.filterMap fun user =>
    let userRiskDetections :=
      if riskDetections ≠ [] then
        riskDetections.filter fun risk => risk.userId = user.id
      else []
    let userRiskyUser :=
      if riskyUsers ≠ [] then
        (riskyUsers.filter fun riskuser => riskuser.id = user.id).head?
      else none
    let r := authMethodsApi user.id
    if r.1 ≠ 200 then
      none
    else
      some { id := user.id
             displayName := user.displayName
             userPrincipalName := user.userPrincipalName
             identityProtectionRiskDetections := userRiskDetections
             identityProtectionRiskyUser := userRiskyUser
             authenticationMethods := r.2 }

/-! ## [M365.AadUser.1] m365_aad_user_mfa_check (lines 198-377) -/

/-- FAILED-branch finding of [M365.AadUser.1] (source lines 217-296). -/
def m365_1_failing (awsAccountId awsRegion awsPartition tenantId iso8601Time : String)
    (user : EnrichedUser) : Finding :=
  { id := tenantId ++ "/" ++ user.id ++ "/azure-ad-user-mfa-registered-check"
    generatorId := tenantId ++ "/" ++ user.id ++ "/azure-ad-user-mfa-registered-check"
    awsAccountId := awsAccountId
    createdAt := iso8601Time
    updatedAt := iso8601Time
    severityLabel := .HIGH
    complianceStatus := .FAILED
    workflowStatus := .NEW
    recordState := .ACTIVE
    resourceType := "AzureActiveDirectoryUser"
    resourceId := tenantId ++ "/" ++ user.id }

/-- PASSED-branch finding of [M365.AadUser.1] (source lines 298-377). -/
def m365_1_passing (awsAccountId awsRegion awsPartition tenantId iso8601Time : String)
    (user : EnrichedUser) : Finding :=
  { id := tenantId ++ "/" ++ user.id ++ "/azure-ad-user-mfa-registered-check"
    generatorId := tenantId ++ "/" ++ user.id ++ "/azure-ad-user-mfa-registered-check"
    awsAccountId := awsAccountId
    createdAt := iso8601Time
    updatedAt := iso8601Time
    severityLabel := .INFORMATIONAL
    complianceStatus := .PASSED
    workflowStatus := .RESOLVED
    recordState := .ARCHIVED
    resourceType := "AzureActiveDirectoryUser"
    resourceId := tenantId ++ "/" ++ user.id }

/-- [M365.AadUser.1] over the enriched user list: branches on
`len(user["authenticationMethods"]) <= 1`. -/
def m365_aad_user_mfa_check
    (awsAccountId awsRegion awsPartition tenantId iso8601Time : String)
    (users : List EnrichedUser) : List Finding :=
  users.map fun user =>
    if user.authenticationMethods.length ≤ 1 then
      m365_1_failing awsAccountId awsRegion awsPartition tenantId iso8601Time user
    else
      m365_1_passing awsAccountId awsRegion awsPartition tenantId iso8601Time user

/-! ## [M365.AadUser.2] m365_aad_user_phishing_resistant_mfa_check (lines 379-576) -/

def phishingResistantFactors : List String :=
  ["fido2AuthenticationMethod",
   "microsoftAuthenticatorAuthenticationMethod",
   "windowsHelloForBusinessAuthenticationMethod"]

/-- First-occurrence split: the part of `l` before the first occurrence of
`sep` and the part after it, or `none` when `sep` does not occur in `l`. -/
def breakOnList (sep : List Char) : List Char → Option (List Char × List Char)
  | [] => none
  | c :: rest =>
    if sep.isPrefixOf (c :: rest) then some ([], (c :: rest).drop sep.length)
    else
      match breakOnList sep rest with
      | none => none
      | some (pre, post) => some (c :: pre, post)

/-- Element `[1]` of the Python `split(sep)` of a string: the text between
the first occurrence of `sep` and the following occurrence (or the end of
the string).  `none` models the `IndexError` Python raises when `sep` does
not occur at all. -/
def pySplitSecond (sep s : String) : Option String :=
  match breakOnList sep.data s.data with
  | none => none
  | some (_, post) =>
    match breakOnList sep.data post with
    | none => some (String.mk post)
    | some (pre2, _) => some (String.mk pre2)

/-- FAILED-branch finding of [M365.AadUser.2] (source lines 416-495). -/
def m365_2_failing (awsAccountId awsRegion awsPartition tenantId iso8601Time : String)
    (user : EnrichedUser) : Finding :=
  { id := tenantId ++ "/" ++ user.id ++ "/azure-ad-user-phishing-resistant-mfa-registered-check"
    generatorId := tenantId ++ "/" ++ user.id ++ "/azure-ad-user-phishing-resistant-mfa-registered-check"
    awsAccountId := awsAccountId
    createdAt := iso8601Time
    updatedAt := iso8601Time
    severityLabel := .MEDIUM
    complianceStatus := .FAILED
    workflowStatus := .NEW
    recordState := .ACTIVE
    resourceType := "AzureActiveDirectoryUser"
    resourceId := tenantId ++ "/" ++ user.id }

/-- PASSED-branch finding of [M365.AadUser.2] (source lines 497-576). -/
def m365_2_passing (awsAccountId awsRegion awsPartition tenantId iso8601Time : String)
    (user : EnrichedUser) : Finding :=
  { id := tenantId ++ "/" ++ user.id ++ "/azure-ad-user-phishing-resistant-mfa-registered-check"
    generatorId := tenantId ++ "/" ++ user.id ++ "/azure-ad-user-phishing-resistant-mfa-registered-check"
    awsAccountId := awsAccountId
    createdAt := iso8601Time
    updatedAt := iso8601Time
    severityLabel := .INFORMATIONAL
    complianceStatus := .PASSED
    workflowStatus := .RESOLVED
    recordState := .ARCHIVED
    resourceType := "AzureActiveDirectoryUser"
    resourceId := tenantId ++ "/" ++ user.id }

/-- [M365.AadUser.2]: collects factors whose
`factor["@odata.type"].split("#microsoft.graph.")[1]` is in
`phishingResistantFactors` and branches on `if not userStrongMfa`.  The
`IndexError` Python would raise when the separator is absent is modelled as
the empty string, which is not a phishing-resistant factor name. -/
def m365_aad_user_phishing_resistant_mfa_check
    (awsAccountId awsRegion awsPartition tenantId iso8601Time : String)
    (users : List EnrichedUser) : List Finding :=
  users.map fun user =>
    let userStrongMfa := user.authenticationMethods.filterMap fun factor =>
      let mfaType := (pySplitSecond "#microsoft.graph." factor.odataType).getD ""
      if mfaType ∈ phishingResistantFactors then some mfaType else none
    if userStrongMfa = [] then
      m365_2_failing awsAccountId awsRegion awsPartition tenantId iso8601Time user
    else
      m365_2_passing awsAccountId awsRegion awsPartition tenantId iso8601Time user

/-! ## [M365.AadUser.3] m365_aad_user_active_identity_protection_risk_detection_check
(lines 578-748) -/

/-- FAILED-branch finding of [M365.AadUser.3] (source lines 610-678); the
severity label is CRITICAL when a `confirmedCompromised` risk state is
present and HIGH otherwise. -/
def m365_3_failing (awsAccountId awsRegion awsPartition tenantId iso8601Time : String)
    (severityLabel : SeverityLabel) (user : EnrichedUser) : Finding :=
  { id := tenantId ++ "/" ++ user.id ++ "/azure-ad-user-identity-protection-risk-detections-check"
    generatorId := tenantId ++ "/" ++ user.id ++ "/azure-ad-user-identity-protection-risk-detections-check"
    awsAccountId := awsAccountId
    createdAt := iso8601Time
    updatedAt := iso8601Time
    severityLabel := severityLabel
    complianceStatus := .FAILED
    workflowStatus := .NEW
    recordState := .ACTIVE
    resourceType := "AzureActiveDirectoryUser"
    resourceId := tenantId ++ "/" ++ user.id }

/-- PASSED-branch finding of [M365.AadUser.3] (source lines 680-748). -/
def m365_3_passing (awsAccountId awsRegion awsPartition tenantId iso8601Time : String)
    (user : EnrichedUser) : Finding :=
  { id := tenantId ++ "/" ++ user.id ++ "/azure-ad-user-identity-protection-risk-detections-check"
    generatorId := tenantId ++ "/" ++ user.id ++ "/azure-ad-user-identity-protection-risk-detections-check"
    awsAccountId := awsAccountId
    createdAt := iso8601Time
    updatedAt := iso8601Time
    severityLabel := .INFORMATIONAL
    complianceStatus := .PASSED
    workflowStatus := .RESOLVED
    recordState := .ARCHIVED
    resourceType := "AzureActiveDirectoryUser"
    resourceId := tenantId ++ "/" ++ user.id }

/-- [M365.AadUser.3]: filters the risk detections on the triggering levels
and states and branches on `if activeRiskDetections`. -/
def m365_aad_user_active_identity_protection_risk_detection_check
    (awsAccountId awsRegion awsPartition tenantId iso8601Time : String)
    (users : List EnrichedUser) : List Finding :=
  users.map fun user =>
    let triggeringRiskLevels := ["medium", "high", "hidden", "unknownFutureValue"]
    let triggeringRiskStates := ["atRisk", "confirmedCompromised", "unknownFutureValue"]
    let activeRiskDetections : List RiskDetection :=
      user.identityProtectionRiskDetections.filter fun risk =>
      triggeringRiskLevels.contains risk.riskLevel && triggeringRiskStates.contains risk.riskState
    let activeRiskStates := activeRiskDetections.map fun risk => risk.riskState
    let severityLabel : SeverityLabel :=
      if "confirmedCompromised" ∈ activeRiskStates then .CRITICAL else .HIGH
    if activeRiskDetections ≠ [] then
      m365_3_failing awsAccountId awsRegion awsPartition tenantId iso8601Time severityLabel user
    else
      m365_3_passing awsAccountId awsRegion awsPartition tenantId iso8601Time user

/-! ## [M365.AadUser.4] m365_aad_user_active_identity_protection_risky_user_check
(lines 750-922) -/

/-- FAILED-branch finding of [M365.AadUser.4] (source lines 784-852). -/
def m365_4_failing (awsAccountId awsRegion awsPartition tenantId iso8601Time : String)
    (severityLabel : SeverityLabel) (user : EnrichedUser) : Finding :=
  { id := tenantId ++ "/" ++ user.id ++ "/azure-ad-user-identity-protection-risky-user-check"
    generatorId := tenantId ++ "/" ++ user.id ++ "/azure-ad-user-identity-protection-risky-user-check"
    awsAccountId := awsAccountId
    createdAt := iso8601Time
    updatedAt := iso8601Time
    severityLabel := severityLabel
    complianceStatus := .FAILED
    workflowStatus := .NEW
    recordState := .ACTIVE
    resourceType := "AzureActiveDirectoryUser"
    resourceId := tenantId ++ "/" ++ user.id }

/-- PASSED-branch finding of [M365.AadUser.4] (source lines 854-922). -/
def m365_4_passing (awsAccountId awsRegion awsPartition tenantId iso8601Time : String)
    (user : EnrichedUser) : Finding :=
  { id := tenantId ++ "/" ++ user.id ++ "/azure-ad-user-identity-protection-risky-user-check"
    generatorId := tenantId ++ "/" ++ user.id ++ "/azure-ad-user-identity-protection-risky-user-check"
    awsAccountId := awsAccountId
    createdAt := iso8601Time
    updatedAt := iso8601Time
    severityLabel := .INFORMATIONAL
    complianceStatus := .PASSED
    workflowStatus := .RESOLVED
    recordState := .ARCHIVED
    resourceType := "AzureActiveDirectoryUser"
    resourceId := tenantId ++ "/" ++ user.id }

/-- [M365.AadUser.4]: a user is risky when its
`identityProtectionRiskyUser` entry is non-empty with `riskState ==
"atRisk"`; the severity is HIGH, MEDIUM or LOW by `riskLevel`. -/
def m365_aad_user_active_identity_protection_risky_user_check
    (awsAccountId awsRegion awsPartition tenantId iso8601Time : String)
    (users : List EnrichedUser) : List Finding :=
  users.map fun user =>
    match user.identityProtectionRiskyUser with
    | some risky =>
      if risky.riskState = "atRisk" then
        let severityLabel : SeverityLabel :=
          if risky.riskLevel = "high" then .HIGH
          else if risky.riskLevel = "medium" then .MEDIUM
          else .LOW
        m365_4_failing awsAccountId awsRegion awsPartition tenantId iso8601Time severityLabel user
      else
        m365_4_passing awsAccountId awsRegion awsPartition tenantId iso8601Time user
    | none =>
      m365_4_passing awsAccountId awsRegion awsPartition tenantId iso8601Time user

/-! ## AWS_Security_Services_Auditor.py -/

/-- FAILED-branch finding of [SecSvcs.1] (source lines 39-89).  Note the
finding `Id` is built from the bare account id while `Resources[0]["Id"]`
carries the `AWS::::Account:` resource identifier, and `GeneratorId` is a
fresh `uuid.uuid4()` string each run. -/
def secsvcs1_failing (awsAccountId awsRegion iso8601Time generatorUuid : String) : Finding :=
  { id := awsAccountId ++ "/security-services-iaa-enabled-check"
    generatorId := generatorUuid
    awsAccountId := awsAccountId
    createdAt := iso8601Time
    updatedAt := iso8601Time
    severityLabel := .MEDIUM
    complianceStatus := .FAILED
    workflowStatus := .NEW
    recordState := .ACTIVE
    resourceType := "AwsAccount"
    resourceId := "AWS::::Account:" ++ awsAccountId }

/-- PASSED-branch finding of [SecSvcs.1] (source lines 91-141). -/
def secsvcs1_passing (awsAccountId awsRegion iso8601Time generatorUuid : String) : Finding :=
  { id := awsAccountId ++ "/security-services-iaa-enabled-check"
    generatorId := generatorUuid
    awsAccountId := awsAccountId
    createdAt := iso8601Time
    updatedAt := iso8601Time
    severityLabel := .INFORMATIONAL
    complianceStatus := .PASSED
    workflowStatus := .RESOLVED
    recordState := .ARCHIVED
    resourceType := "AwsAccount"
    resourceId := "AWS::::Account:" ++ awsAccountId }

/-- `iamAccessAnalyzerDetectorCheck.execute` (source lines 30-141):
branches on `str(response["analyzers"]) == "[]"`, i.e. on the analyzer list
being empty. -/
def iamAccessAnalyzerDetectorCheck
    (awsAccountId awsRegion iso8601Time generatorUuid : String)
    (analyzers : List String) : List Finding :=
  if analyzers = [] then
    [secsvcs1_failing awsAccountId awsRegion iso8601Time generatorUuid]
  else
    [secsvcs1_passing awsAccountId awsRegion iso8601Time generatorUuid]

/-- FAILED-branch finding of [SecSvcs.2] (source lines 152-202). -/
def secsvcs2_failing (awsAccountId awsRegion iso8601Time generatorUuid : String) : Finding :=
  { id := awsAccountId ++ "/security-services-guardduty-enabled-check"
    generatorId := generatorUuid
    awsAccountId := awsAccountId
    createdAt := iso8601Time
    updatedAt := iso8601Time
    severityLabel := .MEDIUM
    complianceStatus := .FAILED
    workflowStatus := .NEW
    recordState := .ACTIVE
    resourceType := "AwsAccount"
    resourceId := "AWS::::Account:" ++ awsAccountId }

/-- PASSED-branch finding of [SecSvcs.2] (source lines 204-254). -/
def secsvcs2_passing (awsAccountId awsRegion iso8601Time generatorUuid : String) : Finding :=
  { id := awsAccountId ++ "/security-services-guardduty-enabled-check"
    generatorId := generatorUuid
    awsAccountId := awsAccountId
    createdAt := iso8601Time
    updatedAt := iso8601Time
    severityLabel := .INFORMATIONAL
    complianceStatus := .PASSED
    workflowStatus := .RESOLVED
    recordState := .ARCHIVED
    resourceType := "AwsAccount"
    resourceId := "AWS::::Account:" ++ awsAccountId }

/-- `GuardDutyDetectorCheck.execute` (source lines 143-254): branches on
`str(response["DetectorIds"]) == "[]"`. -/
def GuardDutyDetectorCheck
    (awsAccountId awsRegion iso8601Time generatorUuid : String)
    (detectorIds : List String) : List Finding :=
  if detectorIds = [] then
    [secsvcs2_failing awsAccountId awsRegion iso8601Time generatorUuid]
  else
    [secsvcs2_passing awsAccountId awsRegion iso8601Time generatorUuid]

/-- FAILED-branch finding of [SecSvcs.3] (source lines 265-315). -/
def secsvcs3_failing (awsAccountId awsRegion iso8601Time generatorUuid : String) : Finding :=
  { id := awsAccountId ++ "/security-services-detective-enabled-check"
    generatorId := generatorUuid
    awsAccountId := awsAccountId
    createdAt := iso8601Time
    updatedAt := iso8601Time
    severityLabel := .MEDIUM
    complianceStatus := .FAILED
    workflowStatus := .NEW
    recordState := .ACTIVE
    resourceType := "AwsAccount"
    resourceId := "AWS::::Account:" ++ awsAccountId }

/-- PASSED-branch finding of [SecSvcs.3] (source lines 317-367). -/
def secsvcs3_passing (awsAccountId awsRegion iso8601Time generatorUuid : String) : Finding :=
  { id := awsAccountId ++ "/security-services-detective-enabled-check"
    generatorId := generatorUuid
    awsAccountId := awsAccountId
    createdAt := iso8601Time
    updatedAt := iso8601Time
    severityLabel := .INFORMATIONAL
    complianceStatus := .PASSED
    workflowStatus := .RESOLVED
    recordState := .ARCHIVED
    resourceType := "AwsAccount"
    resourceId := "AWS::::Account:" ++ awsAccountId }

/-- `DetectiveGraphCheck.execute` (source lines 256-369): the whole body is
wrapped in `try/except` that prints the exception and yields nothing, so an
API failure (`graphList = none`) produces no finding. -/
def DetectiveGraphCheck
    (awsAccountId awsRegion iso8601Time generatorUuid : String)
    (graphList : Option (List String)) : List Finding :=
  match graphList with
  | none => []
  | some gl =>
    if gl = [] then
      [secsvcs3_failing awsAccountId awsRegion iso8601Time generatorUuid]
    else
      [secsvcs3_passing awsAccountId awsRegion iso8601Time generatorUuid]

/-! ## Amazon_EC2_Image_Builder_Auditor.py -/

/-- One entry of `list_image_pipelines()["imagePipelineList"]` or of
`list_image_recipes()["imageRecipeSummaryList"]`. -/
structure ImageBuilderResource where
  arn : String
  name : String
deriving DecidableEq

/-- PASSED-branch finding of [ImageBuilder.1] (source lines 38-77). -/
def ib1_passing (awsAccountId awsRegion awsPartition iso8601Time : String)
    (pipeline : ImageBuilderResource) : Finding :=
  { id := pipeline.arn ++ "/imagebuilder-pipeline-tests-enabled-check"
    generatorId := pipeline.arn
    awsAccountId := awsAccountId
    createdAt := iso8601Time
    updatedAt := iso8601Time
    severityLabel := .INFORMATIONAL
    complianceStatus := .PASSED
    workflowStatus := .RESOLVED
    recordState := .ARCHIVED
    resourceType := "AwsImageBuilderPipeline"
    resourceId := pipeline.arn }

/-- FAILED-branch finding of [ImageBuilder.1] (source lines 79-118). -/
def ib1_failing (awsAccountId awsRegion awsPartition iso8601Time : String)
    (pipeline : ImageBuilderResource) : Finding :=
  { id := pipeline.arn ++ "/imagebuilder-pipeline-tests-enabled-check"
    generatorId := pipeline.arn
    awsAccountId := awsAccountId
    createdAt := iso8601Time
    updatedAt := iso8601Time
    severityLabel := .MEDIUM
    complianceStatus := .FAILED
    workflowStatus := .NEW
    recordState := .ACTIVE
    resourceType := "AwsImageBuilderPipeline"
    resourceId := pipeline.arn }

/-- `imagebuilder_pipeline_tests_enabled_check` (source lines 26-118):
`testsEnabled` models the per-pipeline
`get_image_pipeline(...)["imagePipeline"]["imageTestsConfiguration"]["imageTestsEnabled"]`. -/
def imagebuilder_pipeline_tests_enabled_check
    (awsAccountId awsRegion awsPartition iso8601Time : String)
    (pipelines : List ImageBuilderResource) (testsEnabled : String → Bool) : List Finding :=
  pipelines.map fun arn =>
    if testsEnabled arn.arn = true then
      ib1_passing awsAccountId awsRegion awsPartition iso8601Time arn
    else
      ib1_failing awsAccountId awsRegion awsPartition iso8601Time arn

/-- PASSED-branch finding of [ImageBuilder.2] (source lines 134-173).  The
source reuses the `imagebuilder-pipeline-tests-enabled-check` slug for the
recipe check. -/
def ib2_passing (awsAccountId awsRegion awsPartition iso8601Time : String)
    (recipe : ImageBuilderResource) : Finding :=
  { id := recipe.arn ++ "/imagebuilder-pipeline-tests-enabled-check"
    generatorId := recipe.arn
    awsAccountId := awsAccountId
    createdAt := iso8601Time
    updatedAt := iso8601Time
    severityLabel := .INFORMATIONAL
    complianceStatus := .PASSED
    workflowStatus := .RESOLVED
    recordState := .ARCHIVED
    resourceType := "AwsImageBuilderRecipe"
    resourceId := recipe.arn }

/-- FAILED-branch finding of [ImageBuilder.2] (source lines 175-214). -/
def ib2_failing (awsAccountId awsRegion awsPartition iso8601Time : String)
    (recipe : ImageBuilderResource) : Finding :=
  { id := recipe.arn ++ "/imagebuilder-pipeline-tests-enabled-check"
    generatorId := recipe.arn
    awsAccountId := awsAccountId
    createdAt := iso8601Time
    updatedAt := iso8601Time
    severityLabel := .MEDIUM
    complianceStatus := .FAILED
    workflowStatus := .NEW
    recordState := .ACTIVE
    resourceType := "AwsImageBuilderRecipe"
    resourceId := recipe.arn }

/-- `imagebuilder_ebs_encryption_check` (source lines 120-214):
`ebsEncrypted` models
`get_image_recipe(...)["imageRecipe"]["blockDeviceMappings"][0]["ebs"]["encrypted"]`. -/
def imagebuilder_ebs_encryption_check
    (awsAccountId awsRegion awsPartition iso8601Time : String)
    (recipes : List ImageBuilderResource) (ebsEncrypted : String → Bool) : List Finding :=
  recipes.map fun details =>
    if ebsEncrypted details.arn = true then
      ib2_passing awsAccountId awsRegion awsPartition iso8601Time details
    else
      ib2_failing awsAccountId awsRegion awsPartition iso8601Time details

/-! ## A run environment and the union of every registered check -/

/-- All provider state and per-run inputs that the fifteen embedded checks
consume.  The fields `iso8601Time`, `uuidIaa`, `uuidGuardDuty` and
`uuidDetective` are the run-varying inputs (wall-clock timestamp and the
`uuid.uuid4()` calls of the three security-services checks); everything
else is provider/configuration state. -/
structure Env where
  awsAccountId : String
  awsRegion : String
  awsPartition : String
  iso8601Time : String
  loadBalancers : List ClassicLoadBalancer
  lbAttributes : String → LoadBalancerAttributes
  shodanApiKey : Option String
  googleDns : String → Option String
  shodanHost : String → ShodanResponse
  tenantId : String
  aadUsers : List AadUser
  riskDetections : List RiskDetection
  riskyUsers : List RiskyUser
  authMethodsApi : String → Nat × List AuthMethod
  analyzers : List String
  detectorIds : List String
  graphList : Option (List String)
  uuidIaa : String
  uuidGuardDuty : String
  uuidDetective : String
  imagePipelines : List ImageBuilderResource
  pipelineTestsEnabled : String → Bool
  imageRecipes : List ImageBuilderResource
  recipeEbsEncrypted : String → Bool

/-- The enriched user list the four M365 checks iterate, i.e. the value
`get_aad_users_with_enrichment` computes and caches. -/
def envEnrichedUsers (env : Env) : List EnrichedUser :=
  check_user_mfa_and_risk env.riskDetections env.riskyUsers env.authMethodsApi env.aadUsers

/-- Concatenation of the findings of every registered check in the four
source files, evaluated on one environment. -/
def allFindings (env : Env) : List Finding :=
  internet_facing_clb_https_listener_check env.awsAccountId env.awsRegion env.awsPartition
      env.iso8601Time env.loadBalancers
  ++ clb_https_listener_tls12_policy_check env.awsAccountId env.awsRegion env.awsPartition
      env.iso8601Time env.loadBalancers
  ++ clb_cross_zone_balancing_check env.awsAccountId env.awsRegion env.awsPartition
      env.iso8601Time env.lbAttributes env.loadBalancers
  ++ clb_connection_draining_check env.awsAccountId env.awsRegion env.awsPartition
      env.iso8601Time env.lbAttributes env.loadBalancers
  ++ clb_access_logging_check env.awsAccountId env.awsRegion env.awsPartition
      env.iso8601Time env.lbAttributes env.loadBalancers
  ++ public_clb_shodan_check env.awsAccountId env.awsRegion env.awsPartition
      env.iso8601Time env.shodanApiKey env.googleDns env.shodanHost env.loadBalancers
  ++ m365_aad_user_mfa_check env.awsAccountId env.awsRegion env.awsPartition
      env.tenantId env.iso8601Time (envEnrichedUsers env)
  ++ m365_aad_user_phishing_resistant_mfa_check env.awsAccountId env.awsRegion env.awsPartition
      env.tenantId env.iso8601Time (envEnrichedUsers env)
  ++ m365_aad_user_active_identity_protection_risk_detection_check env.awsAccountId env.awsRegion
      env.awsPartition env.tenantId env.iso8601Time (envEnrichedUsers env)
  ++ m365_aad_user_active_identity_protection_risky_user_check env.awsAccountId env.awsRegion
      env.awsPartition env.tenantId env.iso8601Time (envEnrichedUsers env)
  ++ iamAccessAnalyzerDetectorCheck env.awsAccountId env.awsRegion env.iso8601Time
      env.uuidIaa env.analyzers
  ++ GuardDutyDetectorCheck env.awsAccountId env.awsRegion env.iso8601Time
      env.uuidGuardDuty env.detectorIds
  ++ DetectiveGraphCheck env.awsAccountId env.awsRegion env.iso8601Time
      env.uuidDetective env.graphList
  ++ imagebuilder_pipeline_tests_enabled_check env.awsAccountId env.awsRegion env.awsPartition
      env.iso8601Time env.imagePipelines env.pipelineTestsEnabled
  ++ imagebuilder_ebs_encryption_check env.awsAccountId env.awsRegion env.awsPartition
      env.iso8601Time env.imageRecipes env.recipeEbsEncrypted

/-! ## Run-scoped cache of the ELB auditor

The source shares one Python `dict` per run across the checks of the
`elasticloadbalancing` category; the two keys it stores are
`"get_shodan_api_key"` (an optional API-key string, possibly `None`) and
`"describe_load_balancers"` (a list).  `cache.get(k)` returns the stored
value or `None`, and every helper tests the Python truthiness of that
result (`if response:`), so an absent key, a stored `None` and a stored
empty value are indistinguishable to the guard. -/

structure ElbCache where
  shodanApiKey : Option (Option String)
  loadBalancers : Option (List ClassicLoadBalancer)
deriving DecidableEq

def emptyElbCache : ElbCache := { shodanApiKey := none, loadBalancers := none }

/-- Python truthiness of `cache.get("describe_load_balancers")`: the key
must be present and hold a non-empty list. -/
def pyTruthyCachedList {α : Type} : Option (List α) → Bool
  | none => false
  | some l => !l.isEmpty

/-- Python truthiness of `cache.get("get_shodan_api_key")`: the key must be
present and hold a non-`None`, non-empty string. -/
def pyTruthyCachedKey : Option (Option String) → Bool
  | some (some s) => s ≠ ""
  | some none => false
  | none => false

/-- `describe_clbs` (source lines 125-133).  `elbApi` models
`session.client("elb").describe_load_balancers()["LoadBalancerDescriptions"]`;
the third component counts how many times that underlying API call ran
(0 or 1 per invocation). -/
def describe_clbs (cache : ElbCache) (elbApi : Unit → List ClassicLoadBalancer) :
    List ClassicLoadBalancer × ElbCache × Nat :=
  if pyTruthyCachedList cache.loadBalancers then
    (cache.loadBalancers.getD [], cache, 0)
  else
    let fetched := elbApi ()
    (fetched, { cache with loadBalancers := some fetched }, 1)

/-- N sequential invocations of `describe_clbs` against one cache instance,
as the six checks of the category perform within one run.  Returns the
final cache, the total number of underlying API calls, and the list of
values the invocations returned. -/
def describe_clbs_iter (cache : ElbCache) (elbApi : Unit → List ClassicLoadBalancer) :
    Nat → ElbCache × Nat × List (List ClassicLoadBalancer)
  | 0 => (cache, 0, [])
  | n + 1 =>
    let d := describe_clbs cache elbApi
    let rest := describe_clbs_iter d.2.1 elbApi n
    (rest.1, d.2.2 + rest.2.1, d.1 :: rest.2.2)

/-! ## Credential configuration and the Shodan API key resolver -/

/-- The `[global]` table of `external_providers.toml` as read by
`get_shodan_api_key` (source lines 54-59). -/
structure GlobalConfig where
  credentials_location : String
  shodan_api_key_value : String
deriving DecidableEq

/-- Result of an AWS SSM `get_parameter` / Secrets Manager
`get_secret_value` call: either the decrypted value or a botocore
`ClientError`. -/
inductive BackendResult
  | ok (value : String)
  | clientError (message : String)
deriving DecidableEq

/-- The two boto3 backends `get_shodan_api_key` can query. -/
structure AwsApi where
  ssmGetParameter : String → BackendResult
  asmGetSecretValue : String → BackendResult

def validCredLocations : List String := ["AWS_SSM", "AWS_SECRETS_MANAGER", "CONFIG_FILE"]

/-- `get_shodan_api_key` (source lines 39-98).  `Except.error 2` models
`sys.exit(2)` on an invalid `credentials_location`; the final fallback
`none` branch is unreachable once the membership test passed (the Python
would hit an undefined name there).  A `ClientError` from either backend is
caught and turned into `apiKey = None`. -/
def get_shodan_api_key (cache : ElbCache) (config : GlobalConfig) (aws : AwsApi) :
    Except Nat (Option String × ElbCache) :=
  if pyTruthyCachedKey cache.shodanApiKey then
    .ok (cache.shodanApiKey.getD none, cache)
  else if config.credentials_location ∉ validCredLocations then
    .error 2
  else
    let apiKey : Option String :=
      if config.shodan_api_key_value = "" then none
      else if config.credentials_location = "CONFIG_FILE" then
        some config.shodan_api_key_value
      else if config.credentials_location = "AWS_SSM" then
        match aws.ssmGetParameter config.shodan_api_key_value with
        | .ok v => some v
        | .clientError _ => none
      else if config.credentials_location = "AWS_SECRETS_MANAGER" then
        match aws.asmGetSecretValue config.shodan_api_key_value with
        | .ok v => some v
        | .clientError _ => none
      else none
    .ok (apiKey, { cache with shodanApiKey := some apiKey })

/-! ## One run of the ELB auditor category

The six checks registered in `Amazon_ELB_Auditor.py` run in registration
order against one fresh cache.  Each check is a generator the run loop
drains; `public_clb_shodan_check` calls `get_shodan_api_key` before its
first yield, so `sys.exit(2)` fires after the five earlier checks already
emitted their findings and before the Shodan check emits anything. -/

def elbCheckNames : List String :=
  ["internet_facing_clb_https_listener_check",
   "clb_https_listener_tls12_policy_check",
   "clb_cross_zone_balancing_check",
   "clb_connection_draining_check",
   "clb_access_logging_check",
   "public_clb_shodan_check"]

/-- Result of draining the ELB category: the checks that ran with the
findings each yielded, and the exit code if the process terminated. -/
structure ElbRunResult where
  executed : List (String × List Finding)
  exitCode : Option Nat
deriving DecidableEq

/-- One run of the six ELB checks in registration order on a fresh cache. -/
def run_elb_auditor (config : GlobalConfig) (aws : AwsApi) (env : Env) : ElbRunResult :=
  let api : Unit → List ClassicLoadBalancer := fun _ => env.loadBalancers
  let d1 := describe_clbs emptyElbCache api
  let f1 := internet_facing_clb_https_listener_check env.awsAccountId env.awsRegion
      env.awsPartition env.iso8601Time d1.1
  let d2 := describe_clbs d1.2.1 api
  let f2 := clb_https_listener_tls12_policy_check env.awsAccountId env.awsRegion
      env.awsPartition env.iso8601Time d2.1
  let d3 := describe_clbs d2.2.1 api
  let f3 := clb_cross_zone_balancing_check env.awsAccountId env.awsRegion
      env.awsPartition env.iso8601Time env.lbAttributes d3.1
  let d4 := describe_clbs d3.2.1 api
  let f4 := clb_connection_draining_check env.awsAccountId env.awsRegion
      env.awsPartition env.iso8601Time env.lbAttributes d4.1
  let d5 := describe_clbs d4.2.1 api
  let f5 := clb_access_logging_check env.awsAccountId env.awsRegion
      env.awsPartition env.iso8601Time env.lbAttributes d5.1
  let ran5 := [("internet_facing_clb_https_listener_check", f1),
               ("clb_https_listener_tls12_policy_check", f2),
               ("clb_cross_zone_balancing_check", f3),
               ("clb_connection_draining_check", f4),
               ("clb_access_logging_check", f5)]
  match get_shodan_api_key d5.2.1 config aws with
  | .error code => { executed := ran5, exitCode := some code }
  | .ok keyAndCache =>
    let d6 := describe_clbs keyAndCache.2 api
    let f6 := public_clb_shodan_check env.awsAccountId env.awsRegion env.awsPartition
        env.iso8601Time keyAndCache.1 env.googleDns env.shodanHost d6.1
    { executed := ran5 ++ [("public_clb_shodan_check", f6)], exitCode := none }

/-! ## The M365 OAuth token resolver -/

/-- The response of the `requests.post` token call in `get_oauth_token`:
HTTP status, `r.reason`, and the decoded `access_token` field. -/
structure TokenResponse where
  status : Nat
  reason : String
  access_token : String
deriving DecidableEq

/-- The run-scoped cache of the M365 category (key `"get_oauth_token"`). -/
structure M365Cache where
  oauthToken : Option String
deriving DecidableEq

def emptyM365Cache : M365Cache := { oauthToken := none }

/-- Python truthiness of `cache.get("get_oauth_token")`. -/
def pyTruthyCachedToken : Option String → Bool
  | some s => s ≠ ""
  | none => false

/-- `get_oauth_token` (source lines 32-57).  On a non-200 response the
source executes `raise r.reason` — the exception propagates to the caller,
modelled as `Except.error r.reason`. -/
def get_oauth_token (cache : M365Cache) (r : TokenResponse) :
    Except String (String × M365Cache) :=
  if pyTruthyCachedToken cache.oauthToken then
    .ok (cache.oauthToken.getD "", cache)
  else if r.status ≠ 200 then
    .error r.reason
  else
    .ok (r.access_token, { cache with oauthToken := some r.access_token })

/-- The findings of all four checks registered under the `m365.aadusers`
category, which share one enriched user list per run. -/
def m365CategoryFindings (awsAccountId awsRegion awsPartition tenantId iso8601Time : String)
    (users : List EnrichedUser) : List Finding :=
  m365_aad_user_mfa_check awsAccountId awsRegion awsPartition tenantId iso8601Time users
  ++ m365_aad_user_phishing_resistant_mfa_check awsAccountId awsRegion awsPartition tenantId
      iso8601Time users
  ++ m365_aad_user_active_identity_protection_risk_detection_check awsAccountId awsRegion
      awsPartition tenantId iso8601Time users
  ++ m365_aad_user_active_identity_protection_risky_user_check awsAccountId awsRegion
      awsPartition tenantId iso8601Time users

/-! ## Properties under scrutiny -/

/-- The three-way lifecycle invariant: FAILED iff NEW iff ACTIVE, and
PASSED iff RESOLVED iff ARCHIVED. -/
def lifecycleConsistent (f : Finding) : Prop :=
  (f.complianceStatus = .FAILED ↔ f.workflowStatus = .NEW)
  ∧ (f.complianceStatus = .FAILED ↔ f.recordState = .ACTIVE)
  ∧ (f.complianceStatus = .PASSED ↔ f.workflowStatus = .RESOLVED)
  ∧ (f.complianceStatus = .PASSED ↔ f.recordState = .ARCHIVED)

/-- A passing finding carries only the INFORMATIONAL severity. -/
def passedInformational (f : Finding) : Prop :=
  f.complianceStatus = .PASSED → f.severityLabel = .INFORMATIONAL

/-- The identifier format the specification claims for every finding:
the resource identity, one slash, and a slash-free check slug. -/
def idHasResourceSlugFormat (f : Finding) : Prop :=
  ∃ slug : String, ('/' ∉ slug.data) ∧ f.id = f.resourceId ++ "/" ++ slug

/-- The identifier format the source actually implements: a resource
identity followed by one slash-free slug, where the identity is the
resource id of the record, or (Shodan check) the resource id with the DNS
name appended, or (security-services checks) the bare account id of which
the resource id is the `AWS::::Account:`-prefixed form. -/
def idFormatAmended (f : Finding) : Prop :=
  ∃ ident slug : String, ('/' ∉ slug.data)
    ∧ f.id = ident ++ "/" ++ slug
    ∧ (ident = f.resourceId
       ∨ (∃ dns, ident = f.resourceId ++ "/" ++ dns)
       ∨ f.resourceId = "AWS::::Account:" ++ ident)

/-- Number of slash characters in a string. -/
def slashCount (s : String) : Nat := s.data.count '/'

/-! ## Concrete sample inputs used by witnesses and counterexamples -/

def lb0 : ClassicLoadBalancer :=
  { LoadBalancerName := "web-clb"
    DNSName := "web-clb.example.com"
    SecurityGroups := ["sg-1"]
    Subnets := ["subnet-1"]
    AvailabilityZones := ["us-east-1a"]
    VPCId := "vpc-1"
    Scheme := "internet-facing"
    ListenerDescriptions := [{ Protocol := "HTTPS", PolicyNames := ["ELBSecurityPolicy-TLS-1-2-2017-01"] }] }

def uOk : AadUser :=
  { id := "user-ok", displayName := "User Ok", userPrincipalName := "ok@example.com" }

def uBad : AadUser :=
  { id := "user-bad", displayName := "User Bad", userPrincipalName := "bad@example.com" }

/-- The authentication-methods endpoint of the sample tenant: 200 with one
password factor for `user-ok`, 403 for everything else. -/
def api10 : String → Nat × List AuthMethod := fun userId =>
  if userId = "user-ok" then (200, [{ odataType := "#microsoft.graph.passwordAuthenticationMethod" }])
  else (403, [])

/-- The enrichment record `check_user_mfa_and_risk` produces for `uOk`. -/
def eOk : EnrichedUser :=
  { id := "user-ok"
    displayName := "User Ok"
    userPrincipalName := "ok@example.com"
    identityProtectionRiskDetections := []
    identityProtectionRiskyUser := none
    authenticationMethods := [{ odataType := "#microsoft.graph.passwordAuthenticationMethod" }] }

def env0 : Env :=
  { awsAccountId := "111111111111"
    awsRegion := "us-east-1"
    awsPartition := "aws"
    iso8601Time := "2024-01-01T00:00:00+00:00"
    loadBalancers := [lb0]
    lbAttributes := fun _ =>
      { crossZoneLoadBalancingEnabled := true
        connectionDrainingEnabled := true
        accessLogEnabled := false }
    shodanApiKey := some "shodan-key"
    googleDns := fun _ => some "52.0.0.1"
    shodanHost := fun _ => .noInformation
    tenantId := "tenant-1"
    aadUsers := [uOk, uBad]
    riskDetections := []
    riskyUsers := []
    authMethodsApi := api10
    analyzers := []
    detectorIds := ["det-1"]
    graphList := some []
    uuidIaa := "uuid-aaaa"
    uuidGuardDuty := "uuid-bbbb"
    uuidDetective := "uuid-cccc"
    imagePipelines := [{ arn := "arn:aws:imagebuilder:us-east-1:111111111111:image-pipeline/p1", name := "p1" }]
    pipelineTestsEnabled := fun _ => false
    imageRecipes := [{ arn := "arn:aws:imagebuilder:us-east-1:111111111111:image-recipe/r1", name := "r1" }]
    recipeEbsEncrypted := fun _ => true }

/-- A configuration whose backend kind is not one of the three valid
choices. -/
def badCfg : GlobalConfig :=
  { credentials_location := "LOCAL_VAULT", shodan_api_key_value := "some-key" }

/-- A CONFIG_FILE configuration whose secret value is empty. -/
def cfgEmpty : GlobalConfig :=
  { credentials_location := "CONFIG_FILE", shodan_api_key_value := "" }

/-- Sample AWS secret backends that always succeed. -/
def aws0 : AwsApi :=
  { ssmGetParameter := fun _ => .ok "ssm-value"
    asmGetSecretValue := fun _ => .ok "asm-value" }

/-- A failed OAuth token response. -/
def badTokenResponse : TokenResponse :=
  { status := 401, reason := "Unauthorized", access_token := "" }

/-- A configuration that stores the Shodan key in SSM Parameter Store. -/
def cfgSsm : GlobalConfig :=
  { credentials_location := "AWS_SSM", shodan_api_key_value := "shodan-param" }

/-- AWS secret backends that always deny access. -/
def awsErr : AwsApi :=
  { ssmGetParameter := fun _ => .clientError "AccessDenied"
    asmGetSecretValue := fun _ => .clientError "AccessDenied" }

/-- The finding the Shodan check yields for `lb0` when the host is not
indexed. -/
def shodanSample : Finding :=
  elb6_passing "111111111111" "us-east-1" "aws" "2024-01-01T00:00:00+00:00" lb0

/-! ## Per-check lifecycle and severity soundness -/

theorem elb1_sound (a r p t : String) (lbs : List ClassicLoadBalancer) (f : Finding)
    (hf : f ∈ internet_facing_clb_https_listener_check a r p t lbs) :
    lifecycleConsistent f ∧ passedInformational f := by
  simp only [internet_facing_clb_https_listener_check, List.mem_flatMap] at hf
  obtain ⟨lb, -, hf⟩ := hf
  split at hf
  · simp only [List.mem_map] at hf
    obtain ⟨l, -, hf⟩ := hf
    split at hf <;> subst hf <;>
      simp [lifecycleConsistent, passedInformational, elb1_failing, elb1_passing]
  · simp at hf

theorem elb2_sound (a r p t : String) (lbs : List ClassicLoadBalancer) (f : Finding)
    (hf : f ∈ clb_https_listener_tls12_policy_check a r p t lbs) :
    lifecycleConsistent f ∧ passedInformational f := by
  simp only [clb_https_listener_tls12_policy_check, List.mem_flatMap] at hf
  obtain ⟨lb, -, hf⟩ := hf
  obtain ⟨l, -, hf⟩ := hf
  split at hf
  · simp at hf
  · split at hf <;> simp only [List.mem_singleton] at hf <;> subst hf <;>
      simp [lifecycleConsistent, passedInformational, elb2_failing, elb2_passing]

theorem elb3_sound (a r p t : String) (attrs : String → LoadBalancerAttributes)
    (lbs : List ClassicLoadBalancer) (f : Finding)
    (hf : f ∈ clb_cross_zone_balancing_check a r p t attrs lbs) :
    lifecycleConsistent f ∧ passedInformational f := by
  simp only [clb_cross_zone_balancing_check, List.mem_map] at hf
  obtain ⟨lb, -, hf⟩ := hf
  split at hf <;> subst hf <;>
    simp [lifecycleConsistent, passedInformational, elb3_failing, elb3_passing]

theorem elb4_sound (a r p t : String) (attrs : String → LoadBalancerAttributes)
    (lbs : List ClassicLoadBalancer) (f : Finding)
    (hf : f ∈ clb_connection_draining_check a r p t attrs lbs) :
    lifecycleConsistent f ∧ passedInformational f := by
  simp only [clb_connection_draining_check, List.mem_map] at hf
  obtain ⟨lb, -, hf⟩ := hf
  split at hf <;> subst hf <;>
    simp [lifecycleConsistent, passedInformational, elb4_failing, elb4_passing]

theorem elb5_sound (a r p t : String) (attrs : String → LoadBalancerAttributes)
    (lbs : List ClassicLoadBalancer) (f : Finding)
    (hf : f ∈ clb_access_logging_check a r p t attrs lbs) :
    lifecycleConsistent f ∧ passedInformational f := by
  simp only [clb_access_logging_check, List.mem_map] at hf
  obtain ⟨lb, -, hf⟩ := hf
  split at hf <;> subst hf <;>
    simp [lifecycleConsistent, passedInformational, elb5_failing, elb5_passing]

theorem elb6_sound (a r p t : String) (key : Option String)
    (g : String → Option String) (s : String → ShodanResponse)
    (lbs : List ClassicLoadBalancer) (f : Finding)
    (hf : f ∈ public_clb_shodan_check a r p t key g s lbs) :
    lifecycleConsistent f ∧ passedInformational f := by
  simp only [public_clb_shodan_check, List.mem_flatMap] at hf
  obtain ⟨lb, -, hf⟩ := hf
  split at hf
  · simp at hf
  · split at hf
    · split at hf
      · simp at hf
      · split at hf <;> simp only [List.mem_singleton] at hf <;> subst hf <;>
          simp [lifecycleConsistent, passedInformational, elb6_failing, elb6_passing]
    · simp at hf

theorem m365_1_sound (a r p tid t : String) (users : List EnrichedUser) (f : Finding)
    (hf : f ∈ m365_aad_user_mfa_check a r p tid t users) :
    lifecycleConsistent f ∧ passedInformational f := by
  simp only [m365_aad_user_mfa_check, List.mem_map] at hf
  obtain ⟨u, -, hf⟩ := hf
  split at hf <;> subst hf <;>
    simp [lifecycleConsistent, passedInformational, m365_1_failing, m365_1_passing]

theorem m365_2_sound (a r p tid t : String) (users : List EnrichedUser) (f : Finding)
    (hf : f ∈ m365_aad_user_phishing_resistant_mfa_check a r p tid t users) :
    lifecycleConsistent f ∧ passedInformational f := by
  simp only [m365_aad_user_phishing_resistant_mfa_check, List.mem_map] at hf
  obtain ⟨u, -, hf⟩ := hf
  split at hf <;> subst hf <;>
    simp [lifecycleConsistent, passedInformational, m365_2_failing, m365_2_passing]

theorem m365_3_sound (a r p tid t : String) (users : List EnrichedUser) (f : Finding)
    (hf : f ∈ m365_aad_user_active_identity_protection_risk_detection_check a r p tid t users) :
    lifecycleConsistent f ∧ passedInformational f := by
  simp only [m365_aad_user_active_identity_protection_risk_detection_check, List.mem_map] at hf
  obtain ⟨u, -, hf⟩ := hf
  split at hf <;> subst hf <;>
    simp [lifecycleConsistent, passedInformational, m365_3_failing, m365_3_passing]

theorem m365_4_sound (a r p tid t : String) (users : List EnrichedUser) (f : Finding)
    (hf : f ∈ m365_aad_user_active_identity_protection_risky_user_check a r p tid t users) :
    lifecycleConsistent f ∧ passedInformational f := by
  simp only [m365_aad_user_active_identity_protection_risky_user_check, List.mem_map] at hf
  obtain ⟨u, -, hf⟩ := hf
  split at hf
  · split at hf <;> subst hf <;>
      simp [lifecycleConsistent, passedInformational, m365_4_failing, m365_4_passing]
  · subst hf
    simp [lifecycleConsistent, passedInformational, m365_4_passing]

theorem secsvcs1_sound (a r t u : String) (analyzers : List String) (f : Finding)
    (hf : f ∈ iamAccessAnalyzerDetectorCheck a r t u analyzers) :
    lifecycleConsistent f ∧ passedInformational f := by
  simp only [iamAccessAnalyzerDetectorCheck] at hf
  split at hf <;> simp only [List.mem_singleton] at hf <;> subst hf <;>
    simp [lifecycleConsistent, passedInformational, secsvcs1_failing, secsvcs1_passing]

theorem secsvcs2_sound (a r t u : String) (detectorIds : List String) (f : Finding)
    (hf : f ∈ GuardDutyDetectorCheck a r t u detectorIds) :
    lifecycleConsistent f ∧ passedInformational f := by
  simp only [GuardDutyDetectorCheck] at hf
  split at hf <;> simp only [List.mem_singleton] at hf <;> subst hf <;>
    simp [lifecycleConsistent, passedInformational, secsvcs2_failing, secsvcs2_passing]

theorem secsvcs3_sound (a r t u : String) (graphList : Option (List String)) (f : Finding)
    (hf : f ∈ DetectiveGraphCheck a r t u graphList) :
    lifecycleConsistent f ∧ passedInformational f := by
  rcases graphList with - | gl
  · simp [DetectiveGraphCheck] at hf
  · simp only [DetectiveGraphCheck] at hf
    split at hf <;> simp only [List.mem_singleton] at hf <;> subst hf <;>
      simp [lifecycleConsistent, passedInformational, secsvcs3_failing, secsvcs3_passing]

theorem ib1_sound (a r p t : String) (pipelines : List ImageBuilderResource)
    (en : String → Bool) (f : Finding)
    (hf : f ∈ imagebuilder_pipeline_tests_enabled_check a r p t pipelines en) :
    lifecycleConsistent f ∧ passedInformational f := by
  simp only [imagebuilder_pipeline_tests_enabled_check, List.mem_map] at hf
  obtain ⟨x, -, hf⟩ := hf
  split at hf <;> subst hf <;>
    simp [lifecycleConsistent, passedInformational, ib1_failing, ib1_passing]

theorem ib2_sound (a r p t : String) (recipes : List ImageBuilderResource)
    (en : String → Bool) (f : Finding)
    (hf : f ∈ imagebuilder_ebs_encryption_check a r p t recipes en) :
    lifecycleConsistent f ∧ passedInformational f := by
  simp only [imagebuilder_ebs_encryption_check, List.mem_map] at hf
  obtain ⟨x, -, hf⟩ := hf
  split at hf <;> subst hf <;>
    simp [lifecycleConsistent, passedInformational, ib2_failing, ib2_passing]

/-- Every finding of every embedded check satisfies both the lifecycle
invariant and the PASSED-implies-INFORMATIONAL property. -/
theorem allFindings_sound (env : Env) (f : Finding) (hf : f ∈ allFindings env) :
    lifecycleConsistent f ∧ passedInformational f := by
  simp only [allFindings, List.mem_append] at hf
  rcases hf with ((((((((((((((h | h) | h) | h) | h) | h) | h) | h) | h) | h) | h) | h) | h) | h) | h)
  · exact elb1_sound _ _ _ _ _ _ h
  · exact elb2_sound _ _ _ _ _ _ h
  · exact elb3_sound _ _ _ _ _ _ _ h
  · exact elb4_sound _ _ _ _ _ _ _ h
  · exact elb5_sound _ _ _ _ _ _ _ h
  · exact elb6_sound _ _ _ _ _ _ _ _ _ h
  · exact m365_1_sound _ _ _ _ _ _ _ h
  · exact m365_2_sound _ _ _ _ _ _ _ h
  · exact m365_3_sound _ _ _ _ _ _ _ h
  · exact m365_4_sound _ _ _ _ _ _ _ h
  · exact secsvcs1_sound _ _ _ _ _ _ h
  · exact secsvcs2_sound _ _ _ _ _ _ h
  · exact secsvcs3_sound _ _ _ _ _ _ h
  · exact ib1_sound _ _ _ _ _ _ _ h
  · exact ib2_sound _ _ _ _ _ _ _ h

/-- C1: for every finding record yielded by any registered check,
Compliance.Status is FAILED iff Workflow.Status is NEW iff RecordState is
ACTIVE, and Compliance.Status is PASSED iff Workflow.Status is RESOLVED iff
RecordState is ARCHIVED; no yielded finding sets these three fields in any
other combination. -/
theorem C1_lifecycle_consistency (env : Env) (f : Finding) (hf : f ∈ allFindings env) :
    lifecycleConsistent f :=
  (allFindings_sound env f hf).1

theorem C1_witness :
    elb1_failing "111111111111" "us-east-1" "aws" "2024-01-01T00:00:00+00:00" lb0 ∈ allFindings env0
    ∧ lifecycleConsistent
        (elb1_failing "111111111111" "us-east-1" "aws" "2024-01-01T00:00:00+00:00" lb0) :=
  ⟨by decide, C1_lifecycle_consistency env0 _ (by decide)⟩

/-- C9: for every finding yielded by any check in the codebase, if
Compliance.Status is PASSED then Severity.Label is INFORMATIONAL. -/
theorem C9_passed_informational (env : Env) (f : Finding) (hf : f ∈ allFindings env)
    (hp : f.complianceStatus = .PASSED) : f.severityLabel = .INFORMATIONAL :=
  (allFindings_sound env f hf).2 hp

theorem C9_witness :
    elb3_passing "111111111111" "us-east-1" "aws" "2024-01-01T00:00:00+00:00" lb0 ∈ allFindings env0
    ∧ (elb3_passing "111111111111" "us-east-1" "aws" "2024-01-01T00:00:00+00:00" lb0).severityLabel
        = SeverityLabel.INFORMATIONAL :=
  ⟨by decide, C9_passed_informational env0 _ (by decide) (by decide)⟩

/-- C8: the source condition `Protocol != "HTTPS" or "SSL"` is always
truthy, so for every internet-facing classic load balancer and every one of
its listeners [ELB.1] yields the FAILED finding regardless of the protocol;
the PASSED branch is unreachable for every input. -/
theorem C8_listener_check_always_fails (a r p t : String) (lbs : List ClassicLoadBalancer) :
    internet_facing_clb_https_listener_check a r p t lbs
      = lbs.flatMap fun lb =>
          if lb.Scheme = "internet-facing" then
            lb.ListenerDescriptions.map fun _ => elb1_failing a r p t lb
          else [] := by
  unfold internet_facing_clb_https_listener_check
  induction lbs with
  | nil => rfl
  | cons lb tl ih =>
    simp only [List.flatMap_cons, ih]
    congr 1
    split
    · refine List.map_congr_left fun l _ => ?_
      simp [pyTruthyStr]
    · rfl

/-! ## Stability of the identifier sequence across run-varying inputs -/

theorem flatMap_map_id_congr {α : Type} (l : List α) (F G : α → List Finding)
    (h : ∀ x ∈ l, (F x).map Finding.id = (G x).map Finding.id) :
    (l.flatMap F).map Finding.id = (l.flatMap G).map Finding.id := by
  induction l with
  | nil => rfl
  | cons x xs ih =>
    simp only [List.flatMap_cons, List.map_append]
    rw [h x (List.mem_cons_self x xs), ih fun y hy => h y (List.mem_cons_of_mem x hy)]

theorem map_map_id_congr {α : Type} (l : List α) (F G : α → Finding)
    (h : ∀ x ∈ l, (F x).id = (G x).id) :
    (l.map F).map Finding.id = (l.map G).map Finding.id := by
  simp only [List.map_map]
  exact List.map_congr_left fun x hx => h x hx

theorem elb1_ids_stable (a r p t t2 : String) (lbs : List ClassicLoadBalancer) :
    (internet_facing_clb_https_listener_check a r p t lbs).map Finding.id
      = (internet_facing_clb_https_listener_check a r p t2 lbs).map Finding.id := by
  unfold internet_facing_clb_https_listener_check
  refine flatMap_map_id_congr _ _ _ fun lb _ => ?_
  split
  · exact map_map_id_congr _ _ _ fun l _ => by split_ifs <;> rfl
  · rfl

theorem elb2_ids_stable (a r p t t2 : String) (lbs : List ClassicLoadBalancer) :
    (clb_https_listener_tls12_policy_check a r p t lbs).map Finding.id
      = (clb_https_listener_tls12_policy_check a r p t2 lbs).map Finding.id := by
  unfold clb_https_listener_tls12_policy_check
  refine flatMap_map_id_congr _ _ _ fun lb _ => ?_
  refine flatMap_map_id_congr _ _ _ fun l _ => ?_
  dsimp only
  split_ifs <;> rfl

theorem elb3_ids_stable (a r p t t2 : String) (attrs : String → LoadBalancerAttributes)
    (lbs : List ClassicLoadBalancer) :
    (clb_cross_zone_balancing_check a r p t attrs lbs).map Finding.id
      = (clb_cross_zone_balancing_check a r p t2 attrs lbs).map Finding.id := by
  unfold clb_cross_zone_balancing_check
  refine map_map_id_congr _ _ _ fun lb _ => ?_
  dsimp only
  split_ifs <;> rfl

theorem elb4_ids_stable (a r p t t2 : String) (attrs : String → LoadBalancerAttributes)
    (lbs : List ClassicLoadBalancer) :
    (clb_connection_draining_check a r p t attrs lbs).map Finding.id
      = (clb_connection_draining_check a r p t2 attrs lbs).map Finding.id := by
  unfold clb_connection_draining_check
  refine map_map_id_congr _ _ _ fun lb _ => ?_
  dsimp only
  split_ifs <;> rfl

theorem elb5_ids_stable (a r p t t2 : String) (attrs : String → LoadBalancerAttributes)
    (lbs : List ClassicLoadBalancer) :
    (clb_access_logging_check a r p t attrs lbs).map Finding.id
      = (clb_access_logging_check a r p t2 attrs lbs).map Finding.id := by
  unfold clb_access_logging_check
  refine map_map_id_congr _ _ _ fun lb _ => ?_
  split_ifs <;> rfl

theorem elb6_ids_stable (a r p t t2 : String) (key : Option String)
    (g : String → Option String) (s : String → ShodanResponse)
    (lbs : List ClassicLoadBalancer) :
    (public_clb_shodan_check a r p t key g s lbs).map Finding.id
      = (public_clb_shodan_check a r p t2 key g s lbs).map Finding.id := by
  unfold public_clb_shodan_check
  refine flatMap_map_id_congr _ _ _ fun lb _ => ?_
  split_ifs
  · rfl
  · cases g lb.DNSName with
    | none => rfl
    | some ip =>
      dsimp only
      cases s ip <;> rfl
  · rfl

theorem m365_1_ids_stable (a r p tid t t2 : String) (users : List EnrichedUser) :
    (m365_aad_user_mfa_check a r p tid t users).map Finding.id
      = (m365_aad_user_mfa_check a r p tid t2 users).map Finding.id := by
  unfold m365_aad_user_mfa_check
  refine map_map_id_congr _ _ _ fun u _ => ?_
  split_ifs <;> rfl

theorem m365_2_ids_stable (a r p tid t t2 : String) (users : List EnrichedUser) :
    (m365_aad_user_phishing_resistant_mfa_check a r p tid t users).map Finding.id
      = (m365_aad_user_phishing_resistant_mfa_check a r p tid t2 users).map Finding.id := by
  unfold m365_aad_user_phishing_resistant_mfa_check
  refine map_map_id_congr _ _ _ fun u _ => ?_
  dsimp only
  split_ifs <;> rfl

theorem m365_3_ids_stable (a r p tid t t2 : String) (users : List EnrichedUser) :
    (m365_aad_user_active_identity_protection_risk_detection_check a r p tid t users).map Finding.id
      = (m365_aad_user_active_identity_protection_risk_detection_check a r p tid t2 users).map Finding.id := by
  unfold m365_aad_user_active_identity_protection_risk_detection_check
  refine map_map_id_congr _ _ _ fun u _ => ?_
  dsimp only
  split_ifs <;> rfl

theorem m365_4_ids_stable (a r p tid t t2 : String) (users : List EnrichedUser) :
    (m365_aad_user_active_identity_protection_risky_user_check a r p tid t users).map Finding.id
      = (m365_aad_user_active_identity_protection_risky_user_check a r p tid t2 users).map Finding.id := by
  unfold m365_aad_user_active_identity_protection_risky_user_check
  refine map_map_id_congr _ _ _ fun u _ => ?_
  dsimp only
  cases u.identityProtectionRiskyUser with
  | none => rfl
  | some risky =>
    dsimp only
    split_ifs <;> rfl

theorem secsvcs1_ids_stable (a r t u t2 u2 : String) (analyzers : List String) :
    (iamAccessAnalyzerDetectorCheck a r t u analyzers).map Finding.id
      = (iamAccessAnalyzerDetectorCheck a r t2 u2 analyzers).map Finding.id := by
  unfold iamAccessAnalyzerDetectorCheck
  split_ifs <;> rfl

theorem secsvcs2_ids_stable (a r t u t2 u2 : String) (detectorIds : List String) :
    (GuardDutyDetectorCheck a r t u detectorIds).map Finding.id
      = (GuardDutyDetectorCheck a r t2 u2 detectorIds).map Finding.id := by
  unfold GuardDutyDetectorCheck
  split_ifs <;> rfl

theorem secsvcs3_ids_stable (a r t u t2 u2 : String) (graphList : Option (List String)) :
    (DetectiveGraphCheck a r t u graphList).map Finding.id
      = (DetectiveGraphCheck a r t2 u2 graphList).map Finding.id := by
  unfold DetectiveGraphCheck
  cases graphList with
  | none => rfl
  | some gl =>
    dsimp only
    split_ifs <;> rfl

theorem ib1_ids_stable (a r p t t2 : String) (pipelines : List ImageBuilderResource)
    (en : String → Bool) :
    (imagebuilder_pipeline_tests_enabled_check a r p t pipelines en).map Finding.id
      = (imagebuilder_pipeline_tests_enabled_check a r p t2 pipelines en).map Finding.id := by
  unfold imagebuilder_pipeline_tests_enabled_check
  refine map_map_id_congr _ _ _ fun x _ => ?_
  split_ifs <;> rfl

theorem ib2_ids_stable (a r p t t2 : String) (recipes : List ImageBuilderResource)
    (en : String → Bool) :
    (imagebuilder_ebs_encryption_check a r p t recipes en).map Finding.id
      = (imagebuilder_ebs_encryption_check a r p t2 recipes en).map Finding.id := by
  unfold imagebuilder_ebs_encryption_check
  refine map_map_id_congr _ _ _ fun x _ => ?_
  split_ifs <;> rfl

/-- C6: running the checks twice against unchanged provider state but with
different wall-clock time and different uuid4 values produces the identical
sequence of stable identifiers: the Id field is a deterministic function of
resource identity and check name with no run-varying component. -/
theorem C6_stable_identifiers (env : Env) (t u1 u2 u3 : String) :
    (allFindings { env with iso8601Time := t, uuidIaa := u1,
                            uuidGuardDuty := u2, uuidDetective := u3 }).map Finding.id
      = (allFindings env).map Finding.id := by
  simp only [allFindings, envEnrichedUsers, List.map_append]
  rw [elb1_ids_stable env.awsAccountId env.awsRegion env.awsPartition t env.iso8601Time
        env.loadBalancers,
      elb2_ids_stable env.awsAccountId env.awsRegion env.awsPartition t env.iso8601Time
        env.loadBalancers,
      elb3_ids_stable env.awsAccountId env.awsRegion env.awsPartition t env.iso8601Time
        env.lbAttributes env.loadBalancers,
      elb4_ids_stable env.awsAccountId env.awsRegion env.awsPartition t env.iso8601Time
        env.lbAttributes env.loadBalancers,
      elb5_ids_stable env.awsAccountId env.awsRegion env.awsPartition t env.iso8601Time
        env.lbAttributes env.loadBalancers,
      elb6_ids_stable env.awsAccountId env.awsRegion env.awsPartition t env.iso8601Time
        env.shodanApiKey env.googleDns env.shodanHost env.loadBalancers,
      m365_1_ids_stable env.awsAccountId env.awsRegion env.awsPartition env.tenantId t
        env.iso8601Time _,
      m365_2_ids_stable env.awsAccountId env.awsRegion env.awsPartition env.tenantId t
        env.iso8601Time _,
      m365_3_ids_stable env.awsAccountId env.awsRegion env.awsPartition env.tenantId t
        env.iso8601Time _,
      m365_4_ids_stable env.awsAccountId env.awsRegion env.awsPartition env.tenantId t
        env.iso8601Time _,
      secsvcs1_ids_stable env.awsAccountId env.awsRegion t u1 env.iso8601Time env.uuidIaa
        env.analyzers,
      secsvcs2_ids_stable env.awsAccountId env.awsRegion t u2 env.iso8601Time env.uuidGuardDuty
        env.detectorIds,
      secsvcs3_ids_stable env.awsAccountId env.awsRegion t u3 env.iso8601Time env.uuidDetective
        env.graphList,
      ib1_ids_stable env.awsAccountId env.awsRegion env.awsPartition t env.iso8601Time
        env.imagePipelines env.pipelineTestsEnabled,
      ib2_ids_stable env.awsAccountId env.awsRegion env.awsPartition t env.iso8601Time
        env.imageRecipes env.recipeEbsEncrypted]

/-! ## The run cache is single-flight only for truthy results -/

theorem describe_clbs_iter_cached_nonempty (cache : ElbCache)
    (elbApi : Unit → List ClassicLoadBalancer) (h : elbApi () ≠ [])
    (hc : cache.loadBalancers = some (elbApi ())) (n : Nat) :
    describe_clbs_iter cache elbApi n = (cache, 0, List.replicate n (elbApi ())) := by
  induction n with
  | zero => rfl
  | succ m ih =>
    have ht : pyTruthyCachedList (some (elbApi ())) = true := by
      simp [pyTruthyCachedList, List.isEmpty_iff, h]
    have step : describe_clbs cache elbApi = (elbApi (), cache, 0) := by
      simp [describe_clbs, hc, ht]
    simp [describe_clbs_iter, step, ih, List.replicate_succ]

theorem describe_clbs_iter_empty (elbApi : Unit → List ClassicLoadBalancer)
    (hapi : elbApi () = []) :
    ∀ (n : Nat) (cache : ElbCache), pyTruthyCachedList cache.loadBalancers = false →
      (describe_clbs_iter cache elbApi n).2.1 = n
      ∧ ∀ v ∈ (describe_clbs_iter cache elbApi n).2.2, v = elbApi () := by
  intro n
  induction n with
  | zero =>
    intro cache hc
    exact ⟨rfl, fun v hv => by simp [describe_clbs_iter] at hv⟩
  | succ m ih =>
    intro cache hc
    have step : describe_clbs cache elbApi
        = (elbApi (), { cache with loadBalancers := some (elbApi ()) }, 1) := by
      simp [describe_clbs, hc]
    have hc2 : pyTruthyCachedList
        ({ cache with loadBalancers := some (elbApi ()) } : ElbCache).loadBalancers = false := by
      simp [pyTruthyCachedList, hapi]
    obtain ⟨h1, h2⟩ := ih { cache with loadBalancers := some (elbApi ()) } hc2
    refine ⟨?_, ?_⟩
    · simp only [describe_clbs_iter, step, h1]
      omega
    · intro v hv
      simp only [describe_clbs_iter, step, List.mem_cons] at hv
      rcases hv with rfl | hv
      · rfl
      · exact h2 v hv

/-- C2 amended: within one run, N invocations of the cached fetch helper
all return the same value; the underlying fetch executes exactly once when
the result is truthy (non-empty), but when the result is empty the stored
value is indistinguishable from an absent key, so the fetch re-executes on
every one of the N invocations. -/
theorem C2_cache_single_flight_amended (elbApi : Unit → List ClassicLoadBalancer)
    (N : Nat) (hN : 1 ≤ N) :
    ((elbApi () ≠ [] → (describe_clbs_iter emptyElbCache elbApi N).2.1 = 1)
      ∧ (elbApi () = [] → (describe_clbs_iter emptyElbCache elbApi N).2.1 = N))
    ∧ ∀ v ∈ (describe_clbs_iter emptyElbCache elbApi N).2.2, v = elbApi () := by
  by_cases hapi : elbApi () = []
  · obtain ⟨h1, h2⟩ := describe_clbs_iter_empty elbApi hapi N emptyElbCache
      (by simp [emptyElbCache, pyTruthyCachedList])
    exact ⟨⟨fun hne => absurd hapi hne, fun _ => h1⟩, h2⟩
  · obtain ⟨m, rfl⟩ : ∃ m, N = m + 1 := ⟨N - 1, (Nat.succ_pred_eq_of_pos hN).symm⟩
    have step : describe_clbs emptyElbCache elbApi
        = (elbApi (), { emptyElbCache with loadBalancers := some (elbApi ()) }, 1) := by
      simp [describe_clbs, emptyElbCache, pyTruthyCachedList]
    have hrest := describe_clbs_iter_cached_nonempty
      { emptyElbCache with loadBalancers := some (elbApi ()) } elbApi hapi rfl m
    refine ⟨⟨fun _ => ?_, fun h => absurd h hapi⟩, fun v hv => ?_⟩
    · simp [describe_clbs_iter, step, hrest]
    · simp only [describe_clbs_iter, step, hrest, List.mem_cons] at hv
      rcases hv with rfl | hv
      · rfl
      · exact List.eq_of_mem_replicate hv

/-- C2 counterexample: when the computed result is the empty list, two
invocations of `describe_clbs` within one run execute the underlying fetch
twice — no "empty" sentinel distinguishable from "not yet computed" is
readable back, refuting single-flight for empty results. -/
theorem C2_counterexample :
    (describe_clbs_iter emptyElbCache (fun _ => ([] : List ClassicLoadBalancer)) 2).2.1 = 2
    ∧ (describe_clbs_iter emptyElbCache (fun _ => ([] : List ClassicLoadBalancer)) 2).2.1 ≠ 1 := by
  decide

theorem C2_witness :
    ((fun _ => [lb0] : Unit → List ClassicLoadBalancer) () ≠ [])
    ∧ (describe_clbs_iter emptyElbCache (fun _ => [lb0]) 3).2.1 = 1 :=
  ⟨by decide,
   ((C2_cache_single_flight_amended (fun _ => [lb0]) 3 (by decide)).1).1 (by decide)⟩

/-! ## Lazy credential validation: the exit happens during the Shodan check -/

theorem describe_clbs_shodanKey (cache : ElbCache) (api : Unit → List ClassicLoadBalancer) :
    (describe_clbs cache api).2.1.shodanApiKey = cache.shodanApiKey := by
  unfold describe_clbs
  split <;> rfl

theorem get_shodan_api_key_invalid (cache : ElbCache) (config : GlobalConfig) (aws : AwsApi)
    (hc : cache.shodanApiKey = none) (h : config.credentials_location ∉ validCredLocations) :
    get_shodan_api_key cache config aws = .error 2 := by
  simp [get_shodan_api_key, hc, pyTruthyCachedKey, h]

/-- C3 amended: an invalid credentials_location terminates the process with
exit code 2, but only when the first credential-resolving check (the Shodan
check, sixth in registration order) runs: the five checks registered before
it execute and emit their findings, and the Shodan check emits nothing
before the exit. -/
theorem C3_invalid_backend_amended (config : GlobalConfig) (aws : AwsApi) (env : Env)
    (h : config.credentials_location ∉ validCredLocations) :
    (run_elb_auditor config aws env).exitCode = some 2
    ∧ (run_elb_auditor config aws env).executed.map Prod.fst = List.take 5 elbCheckNames := by
  simp only [run_elb_auditor]
  rw [get_shodan_api_key_invalid _ config aws
      (by simp [describe_clbs_shodanKey, emptyElbCache]) h]
  exact ⟨rfl, rfl⟩

/-- C3 counterexample: with an invalid backend kind and one internet-facing
load balancer, the run does exit with code 2 but findings were already
emitted by the checks that ran before the Shodan check — refuting that the
program terminates before any check executes. -/
theorem C3_counterexample :
    badCfg.credentials_location ∉ validCredLocations
    ∧ (run_elb_auditor badCfg aws0 env0).executed.flatMap Prod.snd ≠ []
    ∧ (run_elb_auditor badCfg aws0 env0).exitCode = some 2 := by
  decide

theorem C3_witness :
    badCfg.credentials_location ∉ validCredLocations
    ∧ (run_elb_auditor badCfg aws0 env0).exitCode = some 2
    ∧ (run_elb_auditor badCfg aws0 env0).executed.map Prod.fst = List.take 5 elbCheckNames :=
  ⟨by decide, (C3_invalid_backend_amended badCfg aws0 env0 (by decide)).1,
   (C3_invalid_backend_amended badCfg aws0 env0 (by decide)).2⟩

/-! ## Backend errors: the AWS resolver returns None, the M365 one raises -/

/-- C4 counterexample: `get_oauth_token` executes `raise r.reason` on a
non-200 token response — the exception propagates to the caller instead of
an "unavailable" `None` being returned. -/
theorem C4_counterexample :
    get_oauth_token emptyM365Cache badTokenResponse = Except.error "Unauthorized" := rfl

/-- C4 amended: on a backend error the AWS Shodan-key resolver returns the
"unavailable" value `None` without raising, but the M365 OAuth resolver
raises on a non-success response, so the no-exception guarantee holds only
for `get_shodan_api_key`, not for every credential-resolution function. -/
theorem C4_resolution_errors_amended (config : GlobalConfig) (aws : AwsApi)
    (cache : ElbCache) (r : TokenResponse)
    (hc : cache.shodanApiKey = none)
    (hloc : config.credentials_location = "AWS_SSM")
    (hval : config.shodan_api_key_value ≠ "")
    (m : String) (herr : aws.ssmGetParameter config.shodan_api_key_value = .clientError m)
    (hr : r.status ≠ 200) :
    get_shodan_api_key cache config aws
        = .ok (none, { cache with shodanApiKey := some none })
    ∧ get_oauth_token emptyM365Cache r = .error r.reason := by
  constructor
  · simp [get_shodan_api_key, hc, pyTruthyCachedKey, hloc, hval, herr, validCredLocations]
  · simp [get_oauth_token, emptyM365Cache, pyTruthyCachedToken, hr]

theorem C4_witness :
    emptyElbCache.shodanApiKey = none
    ∧ cfgSsm.credentials_location = "AWS_SSM"
    ∧ cfgSsm.shodan_api_key_value ≠ ""
    ∧ awsErr.ssmGetParameter cfgSsm.shodan_api_key_value = .clientError "AccessDenied"
    ∧ badTokenResponse.status ≠ 200
    ∧ get_shodan_api_key emptyElbCache cfgSsm awsErr
        = .ok (none, { emptyElbCache with shodanApiKey := some none })
    ∧ get_oauth_token emptyM365Cache badTokenResponse = .error badTokenResponse.reason :=
  ⟨rfl, rfl, by decide, rfl, by decide,
   (C4_resolution_errors_amended cfgSsm awsErr emptyElbCache badTokenResponse rfl rfl
     (by decide) "AccessDenied" rfl (by decide)).1,
   (C4_resolution_errors_amended cfgSsm awsErr emptyElbCache badTokenResponse rfl rfl
     (by decide) "AccessDenied" rfl (by decide)).2⟩

/-! ## Empty CONFIG_FILE secret: resolver yields None, Shodan check skips -/

theorem public_clb_shodan_check_no_key (a r p t : String)
    (g : String → Option String) (s : String → ShodanResponse)
    (lbs : List ClassicLoadBalancer) :
    public_clb_shodan_check a r p t none g s lbs = [] := by
  unfold public_clb_shodan_check
  induction lbs with
  | nil => rfl
  | cons lb tl ih =>
    simp only [List.flatMap_cons, if_pos rfl, List.nil_append]
    exact ih

theorem describe_clbs_value (c : ElbCache) (L : List ClassicLoadBalancer)
    (hc : c.loadBalancers = none ∨ c.loadBalancers = some L) :
    (describe_clbs c (fun _ => L)).1 = L
    ∧ (describe_clbs c (fun _ => L)).2.1.loadBalancers = some L := by
  rcases hc with h | h
  · simp [describe_clbs, pyTruthyCachedList, h]
  · by_cases hL : L.isEmpty = true
    · simp [describe_clbs, pyTruthyCachedList, h, hL]
    · simp [describe_clbs, pyTruthyCachedList, h, hL]

theorem get_shodan_api_key_empty_value (cache : ElbCache) (config : GlobalConfig) (aws : AwsApi)
    (hc : cache.shodanApiKey = none)
    (hloc : config.credentials_location = "CONFIG_FILE")
    (hval : config.shodan_api_key_value = "") :
    get_shodan_api_key cache config aws = .ok (none, { cache with shodanApiKey := some none }) := by
  simp [get_shodan_api_key, hc, pyTruthyCachedKey, hloc, hval, validCredLocations]

/-- C7: with backend CONFIG_FILE and an empty secret value the resolver
returns the "unavailable" value `None`, the Shodan check runs but yields
zero findings, and the other five checks of the category run unaffected,
emitting exactly the findings determined by the provider state. -/
theorem C7_empty_secret_skips_shodan (config : GlobalConfig) (aws : AwsApi) (env : Env)
    (hloc : config.credentials_location = "CONFIG_FILE")
    (hval : config.shodan_api_key_value = "") :
    run_elb_auditor config aws env =
      { executed :=
          [("internet_facing_clb_https_listener_check",
            internet_facing_clb_https_listener_check env.awsAccountId env.awsRegion
              env.awsPartition env.iso8601Time env.loadBalancers),
           ("clb_https_listener_tls12_policy_check",
            clb_https_listener_tls12_policy_check env.awsAccountId env.awsRegion
              env.awsPartition env.iso8601Time env.loadBalancers),
           ("clb_cross_zone_balancing_check",
            clb_cross_zone_balancing_check env.awsAccountId env.awsRegion env.awsPartition
              env.iso8601Time env.lbAttributes env.loadBalancers),
           ("clb_connection_draining_check",
            clb_connection_draining_check env.awsAccountId env.awsRegion env.awsPartition
              env.iso8601Time env.lbAttributes env.loadBalancers),
           ("clb_access_logging_check",
            clb_access_logging_check env.awsAccountId env.awsRegion env.awsPartition
              env.iso8601Time env.lbAttributes env.loadBalancers),
           ("public_clb_shodan_check", [])]
        exitCode := none } := by
  have hd1 := describe_clbs_value emptyElbCache env.loadBalancers (Or.inl rfl)
  have hd2 := describe_clbs_value _ env.loadBalancers (Or.inr hd1.2)
  have hd3 := describe_clbs_value _ env.loadBalancers (Or.inr hd2.2)
  have hd4 := describe_clbs_value _ env.loadBalancers (Or.inr hd3.2)
  have hd5 := describe_clbs_value _ env.loadBalancers (Or.inr hd4.2)
  simp only [run_elb_auditor]
  rw [hd1.1, hd2.1, hd3.1, hd4.1, hd5.1,
      get_shodan_api_key_empty_value _ config aws
        (by simp [describe_clbs_shodanKey, emptyElbCache]) hloc hval]
  dsimp only
  have hd6 := describe_clbs_value
    ({ (describe_clbs ((describe_clbs ((describe_clbs ((describe_clbs ((describe_clbs
        emptyElbCache (fun _ => env.loadBalancers)).2.1) (fun _ => env.loadBalancers)).2.1)
        (fun _ => env.loadBalancers)).2.1) (fun _ => env.loadBalancers)).2.1)
        (fun _ => env.loadBalancers)).2.1 with shodanApiKey := some none } : ElbCache)
    env.loadBalancers (Or.inr hd5.2)
  rw [hd6.1, public_clb_shodan_check_no_key]
  rfl

theorem C7_witness :
    cfgEmpty.credentials_location = "CONFIG_FILE"
    ∧ cfgEmpty.shodan_api_key_value = ""
    ∧ (run_elb_auditor cfgEmpty aws0 env0).exitCode = none
    ∧ (run_elb_auditor cfgEmpty aws0 env0).executed.map Prod.fst = elbCheckNames :=
  ⟨rfl, rfl,
   by rw [C7_empty_secret_skips_shodan cfgEmpty aws0 env0 rfl rfl],
   by rw [C7_empty_secret_skips_shodan cfgEmpty aws0 env0 rfl rfl]; rfl⟩

/-! ## Stable identifier format -/

theorem slashCount_append (a b : String) : slashCount (a ++ b) = slashCount a + slashCount b := by
  simp [slashCount, String.data_append, List.count_append]

theorem append_split_slash (a lit tail : String) (h : lit = "/" ++ tail) :
    a ++ lit = a ++ ("/" ++ tail) := by rw [h]

theorem idFormat_of_resource (f : Finding) (slug : String)
    (hid : f.id = f.resourceId ++ ("/" ++ slug)) (hs : '/' ∉ slug.data) :
    idFormatAmended f :=
  ⟨f.resourceId, slug, hs, by rw [hid, ← String.append_assoc], Or.inl rfl⟩

theorem idFormat_of_dns (f : Finding) (dns slug : String)
    (hid : f.id = f.resourceId ++ "/" ++ dns ++ ("/" ++ slug)) (hs : '/' ∉ slug.data) :
    idFormatAmended f :=
  ⟨f.resourceId ++ "/" ++ dns, slug, hs, by rw [hid, ← String.append_assoc],
   Or.inr (Or.inl ⟨dns, rfl⟩)⟩

theorem idFormat_of_account (f : Finding) (ident slug : String)
    (hid : f.id = ident ++ ("/" ++ slug)) (hres : f.resourceId = "AWS::::Account:" ++ ident)
    (hs : '/' ∉ slug.data) : idFormatAmended f :=
  ⟨ident, slug, hs, by rw [hid, ← String.append_assoc], Or.inr (Or.inr hres)⟩

theorem elb1_idFormat (a r p t : String) (lbs : List ClassicLoadBalancer) (f : Finding)
    (hf : f ∈ internet_facing_clb_https_listener_check a r p t lbs) : idFormatAmended f := by
  simp only [internet_facing_clb_https_listener_check, List.mem_flatMap] at hf
  obtain ⟨lb, -, hf⟩ := hf
  split at hf
  · simp only [List.mem_map] at hf
    obtain ⟨l, -, hf⟩ := hf
    split at hf <;> subst hf <;>
      refine idFormat_of_resource _ "classic-loadbalancer-secure-listener-check" ?_ (by decide) <;>
      · simp only [elb1_failing, elb1_passing]
        exact append_split_slash _ _ _ (by decide)
  · simp at hf

theorem elb2_idFormat (a r p t : String) (lbs : List ClassicLoadBalancer) (f : Finding)
    (hf : f ∈ clb_https_listener_tls12_policy_check a r p t lbs) : idFormatAmended f := by
  simp only [clb_https_listener_tls12_policy_check, List.mem_flatMap] at hf
  obtain ⟨lb, -, hf⟩ := hf
  obtain ⟨l, -, hf⟩ := hf
  split at hf
  · simp at hf
  · split at hf <;> simp only [List.mem_singleton] at hf <;> subst hf <;>
      refine idFormat_of_resource _ "classic-loadbalancer-tls12-policy-check" ?_ (by decide) <;>
      · simp only [elb2_failing, elb2_passing]
        exact append_split_slash _ _ _ (by decide)

theorem elb3_idFormat (a r p t : String) (attrs : String → LoadBalancerAttributes)
    (lbs : List ClassicLoadBalancer) (f : Finding)
    (hf : f ∈ clb_cross_zone_balancing_check a r p t attrs lbs) : idFormatAmended f := by
  simp only [clb_cross_zone_balancing_check, List.mem_map] at hf
  obtain ⟨lb, -, hf⟩ := hf
  split at hf <;> subst hf <;>
    refine idFormat_of_resource _ "classic-loadbalancer-cross-zone-check" ?_ (by decide) <;>
    · simp only [elb3_failing, elb3_passing]
      exact append_split_slash _ _ _ (by decide)

theorem elb4_idFormat (a r p t : String) (attrs : String → LoadBalancerAttributes)
    (lbs : List ClassicLoadBalancer) (f : Finding)
    (hf : f ∈ clb_connection_draining_check a r p t attrs lbs) : idFormatAmended f := by
  simp only [clb_connection_draining_check, List.mem_map] at hf
  obtain ⟨lb, -, hf⟩ := hf
  split at hf <;> subst hf <;>
    refine idFormat_of_resource _ "classic-loadbalancer-connection-draining-check" ?_ (by decide) <;>
    · simp only [elb4_failing, elb4_passing]
      exact append_split_slash _ _ _ (by decide)

theorem elb5_idFormat (a r p t : String) (attrs : String → LoadBalancerAttributes)
    (lbs : List ClassicLoadBalancer) (f : Finding)
    (hf : f ∈ clb_access_logging_check a r p t attrs lbs) : idFormatAmended f := by
  simp only [clb_access_logging_check, List.mem_map] at hf
  obtain ⟨lb, -, hf⟩ := hf
  split at hf <;> subst hf <;>
    refine idFormat_of_resource _ "classic-loadbalancer-access-logging-check" ?_ (by decide) <;>
    · simp only [elb5_failing, elb5_passing]
      exact append_split_slash _ _ _ (by decide)

theorem elb6_idFormat (a r p t : String) (key : Option String)
    (g : String → Option String) (s : String → ShodanResponse)
    (lbs : List ClassicLoadBalancer) (f : Finding)
    (hf : f ∈ public_clb_shodan_check a r p t key g s lbs) : idFormatAmended f := by
  simp only [public_clb_shodan_check, List.mem_flatMap] at hf
  obtain ⟨lb, -, hf⟩ := hf
  split at hf
  · simp at hf
  · split at hf
    · split at hf
      · simp at hf
      · split at hf <;> simp only [List.mem_singleton] at hf <;> subst hf <;>
          refine idFormat_of_dns _ lb.DNSName "classic-load-balancer-shodan-index-check"
            ?_ (by decide) <;>
          · simp only [elb6_failing, elb6_passing]
            exact append_split_slash _ _ _ (by decide)
    · simp at hf

theorem m365_1_idFormat (a r p tid t : String) (users : List EnrichedUser) (f : Finding)
    (hf : f ∈ m365_aad_user_mfa_check a r p tid t users) : idFormatAmended f := by
  simp only [m365_aad_user_mfa_check, List.mem_map] at hf
  obtain ⟨u, -, hf⟩ := hf
  split at hf <;> subst hf <;>
    refine idFormat_of_resource _ "azure-ad-user-mfa-registered-check" ?_ (by decide) <;>
    · simp only [m365_1_failing, m365_1_passing]
      exact append_split_slash _ _ _ (by decide)

theorem m365_2_idFormat (a r p tid t : String) (users : List EnrichedUser) (f : Finding)
    (hf : f ∈ m365_aad_user_phishing_resistant_mfa_check a r p tid t users) :
    idFormatAmended f := by
  simp only [m365_aad_user_phishing_resistant_mfa_check, List.mem_map] at hf
  obtain ⟨u, -, hf⟩ := hf
  split at hf <;> subst hf <;>
    refine idFormat_of_resource _ "azure-ad-user-phishing-resistant-mfa-registered-check"
      ?_ (by decide) <;>
    · simp only [m365_2_failing, m365_2_passing]
      exact append_split_slash _ _ _ (by decide)

theorem m365_3_idFormat (a r p tid t : String) (users : List EnrichedUser) (f : Finding)
    (hf : f ∈ m365_aad_user_active_identity_protection_risk_detection_check a r p tid t users) :
    idFormatAmended f := by
  simp only [m365_aad_user_active_identity_protection_risk_detection_check, List.mem_map] at hf
  obtain ⟨u, -, hf⟩ := hf
  split at hf <;> subst hf <;>
    refine idFormat_of_resource _ "azure-ad-user-identity-protection-risk-detections-check"
      ?_ (by decide) <;>
    · simp only [m365_3_failing, m365_3_passing]
      exact append_split_slash _ _ _ (by decide)

theorem m365_4_idFormat (a r p tid t : String) (users : List EnrichedUser) (f : Finding)
    (hf : f ∈ m365_aad_user_active_identity_protection_risky_user_check a r p tid t users) :
    idFormatAmended f := by
  simp only [m365_aad_user_active_identity_protection_risky_user_check, List.mem_map] at hf
  obtain ⟨u, -, hf⟩ := hf
  split at hf
  · split at hf <;> subst hf <;>
      refine idFormat_of_resource _ "azure-ad-user-identity-protection-risky-user-check"
        ?_ (by decide) <;>
      · simp only [m365_4_failing, m365_4_passing]
        exact append_split_slash _ _ _ (by decide)
  · subst hf
    refine idFormat_of_resource _ "azure-ad-user-identity-protection-risky-user-check"
      ?_ (by decide)
    simp only [m365_4_passing]
    exact append_split_slash _ _ _ (by decide)

theorem secsvcs1_idFormat (a r t u : String) (analyzers : List String) (f : Finding)
    (hf : f ∈ iamAccessAnalyzerDetectorCheck a r t u analyzers) : idFormatAmended f := by
  simp only [iamAccessAnalyzerDetectorCheck] at hf
  split at hf <;> simp only [List.mem_singleton] at hf <;> subst hf <;>
    refine idFormat_of_account _ a "security-services-iaa-enabled-check" ?_ ?_ (by decide) <;>
      simp [secsvcs1_failing, secsvcs1_passing]

theorem secsvcs2_idFormat (a r t u : String) (detectorIds : List String) (f : Finding)
    (hf : f ∈ GuardDutyDetectorCheck a r t u detectorIds) : idFormatAmended f := by
  simp only [GuardDutyDetectorCheck] at hf
  split at hf <;> simp only [List.mem_singleton] at hf <;> subst hf <;>
    refine idFormat_of_account _ a "security-services-guardduty-enabled-check" ?_ ?_ (by decide) <;>
      simp [secsvcs2_failing, secsvcs2_passing]

theorem secsvcs3_idFormat (a r t u : String) (graphList : Option (List String)) (f : Finding)
    (hf : f ∈ DetectiveGraphCheck a r t u graphList) : idFormatAmended f := by
  rcases graphList with - | gl
  · simp [DetectiveGraphCheck] at hf
  · simp only [DetectiveGraphCheck] at hf
    split at hf <;> simp only [List.mem_singleton] at hf <;> subst hf <;>
      refine idFormat_of_account _ a "security-services-detective-enabled-check" ?_ ?_ (by decide) <;>
        simp [secsvcs3_failing, secsvcs3_passing]

theorem ib1_idFormat (a r p t : String) (pipelines : List ImageBuilderResource)
    (en : String → Bool) (f : Finding)
    (hf : f ∈ imagebuilder_pipeline_tests_enabled_check a r p t pipelines en) :
    idFormatAmended f := by
  simp only [imagebuilder_pipeline_tests_enabled_check, List.mem_map] at hf
  obtain ⟨x, -, hf⟩ := hf
  split at hf <;> subst hf <;>
    refine idFormat_of_resource _ "imagebuilder-pipeline-tests-enabled-check" ?_ (by decide) <;>
    · simp only [ib1_failing, ib1_passing]
      exact append_split_slash _ _ _ (by decide)

theorem ib2_idFormat (a r p t : String) (recipes : List ImageBuilderResource)
    (en : String → Bool) (f : Finding)
    (hf : f ∈ imagebuilder_ebs_encryption_check a r p t recipes en) : idFormatAmended f := by
  simp only [imagebuilder_ebs_encryption_check, List.mem_map] at hf
  obtain ⟨x, -, hf⟩ := hf
  split at hf <;> subst hf <;>
    refine idFormat_of_resource _ "imagebuilder-pipeline-tests-enabled-check" ?_ (by decide) <;>
    · simp only [ib2_failing, ib2_passing]
      exact append_split_slash _ _ _ (by decide)

/-- C5 amended: every finding identifier is an identity string, one slash,
and one slash-free check slug, but the identity string is not uniformly the
resource identity of the record: the Shodan check inserts the load balancer
DNS name between the resource ARN and the slug, and the security-services
checks use the bare account id while the resource identity carries the
`AWS::::Account:` prefix; all remaining checks use exactly
resource-identity/check-slug. -/
theorem C5_id_format_amended (env : Env) (f : Finding) (hf : f ∈ allFindings env) :
    idFormatAmended f := by
  simp only [allFindings, List.mem_append] at hf
  rcases hf with ((((((((((((((h | h) | h) | h) | h) | h) | h) | h) | h) | h) | h) | h) | h) | h) | h)
  · exact elb1_idFormat _ _ _ _ _ _ h
  · exact elb2_idFormat _ _ _ _ _ _ h
  · exact elb3_idFormat _ _ _ _ _ _ _ h
  · exact elb4_idFormat _ _ _ _ _ _ _ h
  · exact elb5_idFormat _ _ _ _ _ _ _ h
  · exact elb6_idFormat _ _ _ _ _ _ _ _ _ h
  · exact m365_1_idFormat _ _ _ _ _ _ _ h
  · exact m365_2_idFormat _ _ _ _ _ _ _ h
  · exact m365_3_idFormat _ _ _ _ _ _ _ h
  · exact m365_4_idFormat _ _ _ _ _ _ _ h
  · exact secsvcs1_idFormat _ _ _ _ _ _ h
  · exact secsvcs2_idFormat _ _ _ _ _ _ h
  · exact secsvcs3_idFormat _ _ _ _ _ _ h
  · exact ib1_idFormat _ _ _ _ _ _ _ h
  · exact ib2_idFormat _ _ _ _ _ _ _ h

/-- C5 counterexample: the Shodan check yields a finding whose identifier is
not resource-identity/slug for any slash-free slug — the DNS name sits
between the ARN and the check slug, so the claimed uniform format fails. -/
theorem C5_counterexample :
    shodanSample ∈ public_clb_shodan_check "111111111111" "us-east-1" "aws"
        "2024-01-01T00:00:00+00:00" (some "shodan-key") (fun _ => some "52.0.0.1")
        (fun _ => ShodanResponse.noInformation) [lb0]
    ∧ ¬ idHasResourceSlugFormat shodanSample := by
  refine ⟨by decide, ?_⟩
  rintro ⟨slug, hno, heq⟩
  have hcount := congrArg slashCount heq
  have h0 : slashCount slug = 0 := List.count_eq_zero.mpr hno
  rw [slashCount_append, slashCount_append, h0] at hcount
  revert hcount
  decide

theorem C5_witness :
    ib2_passing "111111111111" "us-east-1" "aws" "2024-01-01T00:00:00+00:00"
        { arn := "arn:aws:imagebuilder:us-east-1:111111111111:image-recipe/r1", name := "r1" }
      ∈ allFindings env0
    ∧ idFormatAmended
        (ib2_passing "111111111111" "us-east-1" "aws" "2024-01-01T00:00:00+00:00"
          { arn := "arn:aws:imagebuilder:us-east-1:111111111111:image-recipe/r1", name := "r1" }) :=
  ⟨by decide, C5_id_format_amended env0 _ (by decide)⟩

/-! ## Enrichment drops users whose MFA request failed -/

theorem check_user_mfa_and_risk_only_200 (rd : List RiskDetection) (ru : List RiskyUser)
    (api : String → Nat × List AuthMethod) (users : List AadUser) (e : EnrichedUser)
    (he : e ∈ check_user_mfa_and_risk rd ru api users) :
    (api e.id).1 = 200 ∧ ∃ u ∈ users, u.id = e.id := by
  simp only [check_user_mfa_and_risk, List.mem_filterMap] at he
  obtain ⟨u, hu, hcase⟩ := he
  split at hcase
  · exact absurd hcase (by simp)
  · rename_i h200
    obtain rfl := Option.some.inj hcase
    exact ⟨not_not.mp h200, ⟨u, hu, rfl⟩⟩

theorem m365_1_resource_origin (a r p tid t : String) (users : List EnrichedUser) (f : Finding)
    (hf : f ∈ m365_aad_user_mfa_check a r p tid t users) :
    ∃ e ∈ users, f.resourceId = tid ++ "/" ++ e.id := by
  simp only [m365_aad_user_mfa_check, List.mem_map] at hf
  obtain ⟨u, hu, hf⟩ := hf
  refine ⟨u, hu, ?_⟩
  split at hf <;> subst hf <;> simp [m365_1_failing, m365_1_passing]

theorem m365_2_resource_origin (a r p tid t : String) (users : List EnrichedUser) (f : Finding)
    (hf : f ∈ m365_aad_user_phishing_resistant_mfa_check a r p tid t users) :
    ∃ e ∈ users, f.resourceId = tid ++ "/" ++ e.id := by
  simp only [m365_aad_user_phishing_resistant_mfa_check, List.mem_map] at hf
  obtain ⟨u, hu, hf⟩ := hf
  refine ⟨u, hu, ?_⟩
  split at hf <;> subst hf <;> simp [m365_2_failing, m365_2_passing]

theorem m365_3_resource_origin (a r p tid t : String) (users : List EnrichedUser) (f : Finding)
    (hf : f ∈ m365_aad_user_active_identity_protection_risk_detection_check a r p tid t users) :
    ∃ e ∈ users, f.resourceId = tid ++ "/" ++ e.id := by
  simp only [m365_aad_user_active_identity_protection_risk_detection_check, List.mem_map] at hf
  obtain ⟨u, hu, hf⟩ := hf
  refine ⟨u, hu, ?_⟩
  split at hf <;> subst hf <;> simp [m365_3_failing, m365_3_passing]

theorem m365_4_resource_origin (a r p tid t : String) (users : List EnrichedUser) (f : Finding)
    (hf : f ∈ m365_aad_user_active_identity_protection_risky_user_check a r p tid t users) :
    ∃ e ∈ users, f.resourceId = tid ++ "/" ++ e.id := by
  simp only [m365_aad_user_active_identity_protection_risky_user_check, List.mem_map] at hf
  obtain ⟨u, hu, hf⟩ := hf
  refine ⟨u, hu, ?_⟩
  split at hf
  · split at hf <;> subst hf <;> simp [m365_4_failing, m365_4_passing]
  · subst hf
    simp [m365_4_passing]

/-- C10: `check_user_mfa_and_risk` returns only users whose
authentication-methods request returned HTTP 200 — a user with a failed
request is omitted entirely from the returned enriched list, and every
finding any of the four M365 AAD checks yields is keyed to an enriched
(hence 200-status) user. -/
theorem C10_failed_users_omitted (rd : List RiskDetection) (ru : List RiskyUser)
    (api : String → Nat × List AuthMethod) (users : List AadUser)
    (a r p tid t : String) :
    (∀ e ∈ check_user_mfa_and_risk rd ru api users,
        (api e.id).1 = 200 ∧ ∃ u ∈ users, u.id = e.id)
    ∧ (∀ f ∈ m365CategoryFindings a r p tid t (check_user_mfa_and_risk rd ru api users),
        ∃ e ∈ check_user_mfa_and_risk rd ru api users,
          f.resourceId = tid ++ "/" ++ e.id ∧ (api e.id).1 = 200) := by
  refine ⟨fun e he => check_user_mfa_and_risk_only_200 rd ru api users e he, ?_⟩
  intro f hf
  simp only [m365CategoryFindings, List.mem_append] at hf
  rcases hf with ((h | h) | h) | h
  · obtain ⟨e, he, hres⟩ := m365_1_resource_origin _ _ _ _ _ _ _ h
    exact ⟨e, he, hres, (check_user_mfa_and_risk_only_200 rd ru api users e he).1⟩
  · obtain ⟨e, he, hres⟩ := m365_2_resource_origin _ _ _ _ _ _ _ h
    exact ⟨e, he, hres, (check_user_mfa_and_risk_only_200 rd ru api users e he).1⟩
  · obtain ⟨e, he, hres⟩ := m365_3_resource_origin _ _ _ _ _ _ _ h
    exact ⟨e, he, hres, (check_user_mfa_and_risk_only_200 rd ru api users e he).1⟩
  · obtain ⟨e, he, hres⟩ := m365_4_resource_origin _ _ _ _ _ _ _ h
    exact ⟨e, he, hres, (check_user_mfa_and_risk_only_200 rd ru api users e he).1⟩

theorem C10_witness :
    check_user_mfa_and_risk [] [] api10 [uOk, uBad] = [eOk]
    ∧ (api10 uBad.id).1 = 403
    ∧ eOk ∈ check_user_mfa_and_risk [] [] api10 [uOk, uBad]
    ∧ ((api10 eOk.id).1 = 200 ∧ ∃ u ∈ [uOk, uBad], u.id = eOk.id) :=
  ⟨by decide, by decide, by decide,
   (C10_failed_users_omitted [] [] api10 [uOk, uBad] "111111111111" "us-east-1" "aws"
       "tenant-1" "2024-01-01T00:00:00+00:00").1 eOk (by decide)⟩

end ElectricEye
